import Mathlib

/-!
# jquery.vizi: the visibility engine of `src/jquery.vizi.js`

A shallow embedding of the plugin's private and public methods.

* JavaScript numbers that the plugin reads (rectangle fields, offsets, window size) are
  rationals. The methods are embedded with exact arithmetic and, from `binary64` on, a second
  time with the result of every addition, subtraction and division rounded to the nearest
  binary64 number (names ending in `64`); the second embedding is the one used where
  rounding decides an outcome.
* The result of a JavaScript division is a `JSNum`: a finite rational, or `Infinity`,
  `-Infinity`, `NaN` when the divisor is zero (zero is taken to be `+0`).
* `instance._data` is the explicit state `Data`; every method takes the state and gives the
  next one. A method that dereferences `null`/`undefined` gives `Except.error`.
* The DOM (window size and the two `getBoundingClientRect()` results) is the input `Dom`.
* User callbacks are recorded in a call log; they are assumed not to touch the instance.
-/

namespace Vizi

/-! ## Values -/

/-- Result of a JavaScript division. -/
inductive JSNum where
  | fin (q : ℚ)
  | posInf
  | negInf
  | nan
  deriving DecidableEq

/-- The JavaScript `a / b` on finite numbers. -/
def jsDiv (a b : ℚ) : JSNum :=
  if b = 0 then
    if a = 0 then JSNum.nan else if 0 < a then JSNum.posInf else JSNum.negInf
  else JSNum.fin (a / b)

/-- The JavaScript `x > c` for a finite constant `c`. -/
def JSNum.gt (x : JSNum) (c : ℚ) : Bool :=
  match x with
  | JSNum.fin q => decide (c < q)
  | JSNum.posInf => true
  | JSNum.negInf => false
  | JSNum.nan => false

/-- The JavaScript `x < c` for a finite constant `c`. -/
def JSNum.lt (x : JSNum) (c : ℚ) : Bool :=
  match x with
  | JSNum.fin q => decide (q < c)
  | JSNum.posInf => false
  | JSNum.negInf => true
  | JSNum.nan => false

/-- A number in the closed interval from 0 to 1 (so neither `NaN` nor infinite). -/
def JSNum.inUnit (x : JSNum) : Prop :=
  match x with
  | JSNum.fin q => 0 ≤ q ∧ q ≤ 1
  | _ => False

instance (x : JSNum) : Decidable x.inUnit := by
  cases x <;> unfold JSNum.inUnit <;> infer_instance

/-- Errors a method can raise. -/
inductive JSError where
  | typeError
  deriving DecidableEq

/-- A bounding rectangle, as `getBoundingClientRect()` gives it. -/
structure Rect where
  left : ℚ
  top : ℚ
  right : ℚ
  bottom : ℚ
  width : ℚ
  height : ℚ
  deriving DecidableEq

/-- A value that `offset.right` or `offset.bottom` can hold. These two sides are stored as
given, and the guard `!isNaN(v)` of the setters lets `null` and the booleans through as well
as numbers. (A string or an object that converts to a number passes the guard too; such
values are not modelled.) -/
inductive JSStored where
  | num (q : ℚ)
  | null
  | bool (b : Bool)
  deriving DecidableEq

/-- The JavaScript conversion to a number: `null` is 0, `true` is 1, `false` is 0. -/
def JSStored.toNumber (v : JSStored) : ℚ :=
  match v with
  | JSStored.num q => q
  | JSStored.null => 0
  | JSStored.bool b => if b then 1 else 0

instance : Coe ℚ JSStored :=
  ⟨JSStored.num⟩

instance (n : ℕ) : OfNat JSStored n :=
  ⟨JSStored.num (OfNat.ofNat n)⟩

/-- The stored offset, `instance._data.element.offset`. The sides `left` and `top` are always
the result of a negation, so numbers; `right` and `bottom` hold what was assigned. -/
structure Offset where
  left : ℚ
  top : ℚ
  right : JSStored
  bottom : JSStored
  deriving DecidableEq

/-- Which edges of the element are in view, `instance._data.element.position`. -/
structure Position where
  top : Bool
  bottom : Bool
  left : Bool
  right : Bool
  all : Bool
  deriving DecidableEq

/-- A pair of per-axis numbers (`percent`, `progress`). -/
structure XY where
  x : JSNum
  y : JSNum
  deriving DecidableEq

/-- A property of an offset object: absent (`undefined`), a value for which `isNaN` holds
(`NaN`, a string such as `'abc'`, a plain object), a number, `null` or a boolean. The last
two are not numbers, yet `isNaN(null)` and `isNaN(true)` are false. -/
inductive JSField where
  | undefined
  | notANumber
  | num (q : ℚ)
  | null
  | bool (b : Bool)
  deriving DecidableEq

/-- The test `v !== undefined && !isNaN(v)` together with the value read when it passes. -/
def JSField.value (v : JSField) : Option JSStored :=
  match v with
  | JSField.undefined => none
  | JSField.notANumber => none
  | JSField.num q => some (JSStored.num q)
  | JSField.null => some JSStored.null
  | JSField.bool b => some (JSStored.bool b)

/-- The test `v !== undefined && !isNaN(v)` together with the number that `-v` negates when
it passes: the value converted to a number. -/
def JSField.number (v : JSField) : Option ℚ :=
  match v with
  | JSField.undefined => none
  | JSField.notANumber => none
  | JSField.num q => some q
  | JSField.null => some 0
  | JSField.bool b => some (if b then 1 else 0)

/-- A plain object `{ left, top, right, bottom }` given as an offset. -/
structure OffsetObject where
  left : JSField
  top : JSField
  right : JSField
  bottom : JSField
  deriving DecidableEq

/-- An offset value: a number or a plain object. -/
inductive OffsetValue where
  | num (n : ℚ)
  | obj (o : OffsetObject)
  deriving DecidableEq

/-- A configured callback: a function or some other value. -/
inductive JSCallback where
  | function
  | other
  deriving DecidableEq

/-- The test `jQuery.isFunction(cb)`. -/
def isFunction (cb : JSCallback) : Bool :=
  match cb with
  | JSCallback.function => true
  | JSCallback.other => false

/-- The merged `settings` of an instance. `containerIsWindow` is `settings.container === window`. -/
structure Settings where
  containerIsWindow : Bool
  percentVisible : Bool
  percentProgress : Bool
  ignoreOverflow : Bool
  offset : OffsetValue
  partiallyVisible : Bool
  onVisible : JSCallback
  onEnter : JSCallback
  onLeave : JSCallback
  deriving DecidableEq

/-- The `defaults` object. -/
def defaults : Settings :=
  { containerIsWindow := true
    percentVisible := true
    percentProgress := true
    ignoreOverflow := false
    offset := OffsetValue.num 0
    partiallyVisible := true
    onVisible := JSCallback.function
    onEnter := JSCallback.function
    onLeave := JSCallback.function }

/-- What the browser reports when a method runs. -/
structure Dom where
  windowWidth : ℚ
  windowHeight : ℚ
  containerRect : Rect
  elementRect : Rect
  deriving DecidableEq

/-- The record `instance._data.container`. -/
structure ContainerData where
  rect : Option Rect
  deriving DecidableEq

/-- The record `instance._data.element`. -/
structure ElementData where
  rect : Option Rect
  position : Position
  visible : Bool
  percent : XY
  offset : Offset
  progress : XY
  deriving DecidableEq

/-- The record `instance._data`. -/
structure Data where
  container : ContainerData
  element : ElementData
  deriving DecidableEq

/-- The object handed to the callbacks and returned by `refresh`. A property that the code
never assigns (`percent`, `progress`) is `none`: it is absent from the object. -/
structure EventObject where
  position : Position
  visible : Bool
  percent : Option XY
  progress : Option XY
  deriving DecidableEq

/-- One callback invocation. -/
inductive Call where
  | onEnter (e : EventObject)
  | onLeave (e : EventObject)
  | onVisible (e : EventObject)
  deriving DecidableEq

/-- The argument of `_event`. -/
inductive EventType where
  | none
  | scroll
  | resize
  | refresh
  deriving DecidableEq

/-! ## Private methods -/

/-- The default data that `_init` writes to `instance._data`. -/
def initialData : Data :=
  { container := { rect := none }
    element :=
      { rect := none
        position := { top := false, bottom := false, left := false, right := false, all := false }
        visible := false
        percent := { x := JSNum.fin 0, y := JSNum.fin 0 }
        offset := { left := 0, top := 0, right := 0, bottom := 0 }
        progress := { x := JSNum.fin 0, y := JSNum.fin 0 } } }

/-- The object `cont_data` built by `_setContainerData`: the made-up window rectangle when the
container is the window, the container's bounding rectangle otherwise. -/
def contData (s : Settings) (dom : Dom) : Rect :=
  let windowContRect : Rect :=
    { left := 0, top := 0, right := dom.windowWidth, bottom := dom.windowHeight,
      width := dom.windowWidth, height := dom.windowHeight }
  let contRect : Rect := if s.containerIsWindow then windowContRect else dom.containerRect
  { left := contRect.left, top := contRect.top, right := contRect.right,
    bottom := contRect.bottom, width := contRect.width, height := contRect.height }

/-- Method `_setContainerData`. -/
def _setContainerData (s : Settings) (dom : Dom) (d : Data) : Data :=
  { d with container := { rect := some (contData s dom) } }

/-- The JavaScript `args || settings.offset`: `undefined` and `0` are falsy. -/
def offsetSetting (args : Option OffsetValue) (s : Settings) : OffsetValue :=
  match args with
  | none => s.offset
  | some (OffsetValue.num n) => if n = 0 then s.offset else OffsetValue.num n
  | some (OffsetValue.obj o) => OffsetValue.obj o

/-- The four guarded assignments `if ( a.f !== undefined && !isNaN(a.f) ){ offset.f = ... }`. -/
def assignFields (a : OffsetObject) (offset : Offset) : Offset :=
  let offset : Offset :=
    match a.left.number with
    | some v => { offset with left := -v }
    | none => offset
  let offset : Offset :=
    match a.top.number with
    | some v => { offset with top := -v }
    | none => offset
  let offset : Offset :=
    match a.right.value with
    | some v => { offset with right := v }
    | none => offset
  match a.bottom.value with
  | some v => { offset with bottom := v }
  | none => offset

/-- The assignments of the number branch: `offset.left = offset.top = -n` and
`offset.right = offset.bottom = n`. -/
def numberOffset (n : ℚ) : Offset :=
  { left := -n, top := -n, right := JSStored.num n, bottom := JSStored.num n }

/-- Method `_setElementOffset`. Reading `args.left` when `args` is `undefined` raises. -/
def _setElementOffset (args : Option OffsetValue) (s : Settings) (d : Data) :
    Except JSError Data :=
  let offset : Offset := { left := 0, top := 0, right := 0, bottom := 0 }
  let save (o : Offset) : Data := { d with element := { d.element with offset := o } }
  match offsetSetting args s with
  | OffsetValue.num n => Except.ok (save (numberOffset n))
  | OffsetValue.obj _ =>
    match args with
    | none => Except.error JSError.typeError
    | some (OffsetValue.num _) => Except.ok (save offset)
    | some (OffsetValue.obj a) => Except.ok (save (assignFields a offset))

/-- The object `elem_data` built by `_setElementData` from the element's bounding rectangle
and the stored offset. Adding `null` or a boolean to a number converts it to a number. -/
def elemData (elementRect : Rect) (offset : Offset) : Rect :=
  { left := elementRect.left + offset.left
    top := elementRect.top + offset.top
    right := elementRect.right + offset.right.toNumber
    bottom := elementRect.bottom + offset.bottom.toNumber
    width := elementRect.width + (-offset.left + offset.bottom.toNumber)
    height := elementRect.height + (-offset.top + offset.bottom.toNumber) }

/-- Method `_setElementData`. -/
def _setElementData (dom : Dom) (d : Data) : Data :=
  { d with element := { d.element with rect := some (elemData dom.elementRect d.element.offset) } }

/-- The object `position` built by `_setElementPosition`, the four differences taken
exactly (`elementPosition64` rounds them). -/
def elementPosition (cont_data elem_data : Rect) : Position :=
  let top : Bool := decide (cont_data.top - elem_data.top ≤ 0) &&
    decide (|cont_data.top - elem_data.top| < cont_data.height)
  let bottom : Bool := decide (cont_data.bottom - elem_data.bottom > 0) &&
    decide (|cont_data.bottom - elem_data.bottom| < cont_data.height)
  let left : Bool := decide (cont_data.left - elem_data.left ≤ 0) &&
    decide (|cont_data.left - elem_data.left| < cont_data.width)
  let right : Bool := decide (cont_data.right - elem_data.right > 0) &&
    decide (|cont_data.right - elem_data.right| < cont_data.width)
  { top := top, bottom := bottom, left := left, right := right,
    all := left && top && right && bottom }

/-- Method `_setElementPosition`. -/
def _setElementPosition (d : Data) : Except JSError Data :=
  match d.container.rect, d.element.rect with
  | some cont_data, some elem_data =>
    Except.ok { d with element := { d.element with position := elementPosition cont_data elem_data } }
  | _, _ => Except.error JSError.typeError

/-- The value `visible` computed by `_setElementVisibility`. -/
def elementVisibility (s : Settings) (container_rect element_rect : Rect) (position : Position) :
    Bool :=
  if s.partiallyVisible then
    if (position.top || position.bottom) && (position.right || position.left) then true
    else if (position.top || position.bottom) &&
        (decide (element_rect.left < 0) &&
          decide (element_rect.right ≥ container_rect.width)) then true
    else if (decide (element_rect.top < 0) &&
          decide (element_rect.bottom ≥ container_rect.height)) &&
        (position.right || position.left) then true
    else if !position.all &&
        (decide (element_rect.left < 0) &&
          decide (element_rect.right ≥ container_rect.width)) &&
        (decide (element_rect.top < 0) &&
          decide (element_rect.bottom ≥ container_rect.height)) then true
    else false
  else position.all

/-- Reading a property of a stored rectangle: a TypeError when the rectangle is `null`. -/
def readRect (rect : Option Rect) : Except JSError Rect :=
  match rect with
  | some r => Except.ok r
  | none => Except.error JSError.typeError

/-- The test `element_rect.left < 0 && element_rect.right >= container_rect.width` on the
stored rectangles: the container is read only when the first comparison holds. -/
def overflowsX (d : Data) : Except JSError Bool := do
  let element_rect ← readRect d.element.rect
  if element_rect.left < 0 then
    let container_rect ← readRect d.container.rect
    pure (decide (element_rect.right ≥ container_rect.width))
  else pure false

/-- The test `element_rect.top < 0 && element_rect.bottom >= container_rect.height` on the
stored rectangles: the container is read only when the first comparison holds. -/
def overflowsY (d : Data) : Except JSError Bool := do
  let element_rect ← readRect d.element.rect
  if element_rect.top < 0 then
    let container_rect ← readRect d.container.rect
    pure (decide (element_rect.bottom ≥ container_rect.height))
  else pure false

/-- Method `_setElementVisibility`. The rectangles are read only where a branch compares
their fields: not when `partiallyVisible` is off, nor when the first branch is taken. -/
def _setElementVisibility (s : Settings) (d : Data) : Except JSError Data := do
  let position := d.element.position
  let visible : Bool ←
    if s.partiallyVisible then
      if (position.top || position.bottom) && (position.right || position.left) then
        pure true
      else do
        let cutX ← if position.top || position.bottom then overflowsX d else pure false
        if cutX then pure true
        else do
          let overY ← overflowsY d
          let cutY := if overY then position.right || position.left else false
          if cutY then pure true
          else do
            let overX ← if !position.all then overflowsX d else pure false
            let both ← if overX then overflowsY d else pure false
            pure both
    else pure position.all
  pure { d with element := { d.element with visible := visible } }

/-- Method `_normalizePercent`. -/
def _normalizePercent (percent : JSNum) : JSNum :=
  if percent.gt 1 then JSNum.fin 1
  else if percent.lt 0 then JSNum.fin 0
  else percent

/-- The value `percent` computed by `_getProgressY`. -/
def progressY (element_rect container_rect : Rect) : JSNum :=
  let calcValue := jsDiv (element_rect.bottom - container_rect.top)
    (container_rect.height + element_rect.height)
  _normalizePercent calcValue

/-- Method `_getProgressY`. -/
def _getProgressY (d : Data) : Except JSError JSNum :=
  match d.element.rect, d.container.rect with
  | some element_rect, some container_rect => Except.ok (progressY element_rect container_rect)
  | _, _ => Except.error JSError.typeError

/-- The value `percent` computed by `_getProgressX`. -/
def progressX (element_rect container_rect : Rect) : JSNum :=
  let calcValue := jsDiv (element_rect.right - container_rect.left)
    (container_rect.width + element_rect.width)
  _normalizePercent calcValue

/-- Method `_getProgressX`. -/
def _getProgressX (d : Data) : Except JSError JSNum :=
  match d.element.rect, d.container.rect with
  | some element_rect, some container_rect => Except.ok (progressX element_rect container_rect)
  | _, _ => Except.error JSError.typeError

/-- The value `ret` computed by `_getPercentX`. -/
def percentX (s : Settings) (element_rect container_rect : Rect) (element_position : Position) :
    JSNum :=
  if (element_position.left && !element_position.right) ||
      (!element_position.left && element_position.right) then
    if element_position.left then
      jsDiv (container_rect.width - (element_rect.left - container_rect.left))
        element_rect.width
    else
      jsDiv (element_rect.right - container_rect.left) element_rect.width
  else if element_position.left && element_position.right then JSNum.fin 1
  else if !element_position.left && !element_position.right &&
      decide (element_rect.left < 0) &&
      decide (element_rect.right ≥ container_rect.width) then
    if s.ignoreOverflow then JSNum.fin 1
    else jsDiv container_rect.width element_rect.width
  else JSNum.fin 0

/-- Method `_getPercentX`. The rectangles are read only where a branch uses their fields:
not when both edges are in view. -/
def _getPercentX (s : Settings) (d : Data) : Except JSError JSNum := do
  let element_position := d.element.position
  if (element_position.left && !element_position.right) ||
      (!element_position.left && element_position.right) then
    let container_rect ← readRect d.container.rect
    let element_rect ← readRect d.element.rect
    if element_position.left then
      pure (jsDiv (container_rect.width - (element_rect.left - container_rect.left))
        element_rect.width)
    else
      pure (jsDiv (element_rect.right - container_rect.left) element_rect.width)
  else if element_position.left && element_position.right then pure (JSNum.fin 1)
  else do
    let over ← overflowsX d
    if over then
      if s.ignoreOverflow then pure (JSNum.fin 1)
      else do
        let container_rect ← readRect d.container.rect
        let element_rect ← readRect d.element.rect
        pure (jsDiv container_rect.width element_rect.width)
    else pure (JSNum.fin 0)

/-- The value `ret` computed by `_getPercentY`. -/
def percentY (s : Settings) (element_rect container_rect : Rect) (element_position : Position) :
    JSNum :=
  if (element_position.top && !element_position.bottom) ||
      (!element_position.top && element_position.bottom) then
    if element_position.top then
      jsDiv (container_rect.height - element_rect.top) element_rect.height
    else
      jsDiv element_rect.bottom element_rect.height
  else if element_position.top && element_position.bottom then JSNum.fin 1
  else if !element_position.top && !element_position.bottom &&
      decide (element_rect.top < 0) &&
      decide (element_rect.bottom ≥ container_rect.height) then
    if s.ignoreOverflow then JSNum.fin 1
    else jsDiv container_rect.height element_rect.height
  else JSNum.fin 0

/-- Method `_getPercentY`. The rectangles are read only where a branch uses their fields:
not when both edges are in view. -/
def _getPercentY (s : Settings) (d : Data) : Except JSError JSNum := do
  let element_position := d.element.position
  if (element_position.top && !element_position.bottom) ||
      (!element_position.top && element_position.bottom) then
    let container_rect ← readRect d.container.rect
    let element_rect ← readRect d.element.rect
    if element_position.top then
      pure (jsDiv (container_rect.height - element_rect.top) element_rect.height)
    else
      pure (jsDiv element_rect.bottom element_rect.height)
  else if element_position.top && element_position.bottom then pure (JSNum.fin 1)
  else do
    let over ← overflowsY d
    if over then
      if s.ignoreOverflow then pure (JSNum.fin 1)
      else do
        let container_rect ← readRect d.container.rect
        let element_rect ← readRect d.element.rect
        pure (jsDiv container_rect.height element_rect.height)
    else pure (JSNum.fin 0)

/-- Method `_setElementPercent`. -/
def _setElementPercent (s : Settings) (d : Data) : Except JSError Data := do
  let percentY ← _getPercentY s d
  let percentX ← _getPercentX s d
  pure { d with element := { d.element with percent := { x := percentX, y := percentY } } }

/-- Method `_setElementProgress`. -/
def _setElementProgress (d : Data) : Except JSError Data := do
  let progressY ← _getProgressY d
  let progressX ← _getProgressX d
  pure { d with element := { d.element with progress := { x := progressX, y := progressY } } }

/-- Method `_updateElementVisibility`: the recompute pipeline. -/
def _updateElementVisibility (s : Settings) (dom : Dom) (d : Data) : Except JSError Data := do
  let d := _setContainerData s dom d
  let d ← _setElementOffset none s d
  let d := _setElementData dom d
  let d ← _setElementPosition d
  let d ← _setElementVisibility s d
  let d ← _setElementPercent s d
  _setElementProgress d

/-- The callbacks that `_event` invokes, in order, for the old and the new visibility. -/
def dispatch (s : Settings) (previously_visible isVisible : Bool) (event_object : EventObject) :
    List Call :=
  let changed : List Call :=
    if isVisible != previously_visible then
      if isVisible && isFunction s.onEnter then [Call.onEnter event_object]
      else if !isVisible && isFunction s.onLeave then [Call.onLeave event_object]
      else []
    else []
  let tick : List Call :=
    if isVisible && isFunction s.onVisible then [Call.onVisible event_object] else []
  changed ++ tick

/-- Method `_event`: the next state, the callbacks invoked, and the value returned. -/
def _event (type : EventType) (s : Settings) (dom : Dom) (d : Data) :
    Except JSError (Data × List Call × Option EventObject) := do
  let previously_visible := d.element.visible
  let d ← _updateElementVisibility s dom d
  let event_object : EventObject :=
    { position := d.element.position
      visible := d.element.visible
      percent := if s.percentVisible then some { x := d.element.percent.x, y := d.element.percent.y }
        else none
      progress := if s.percentProgress then
          some { x := d.element.progress.x, y := d.element.progress.y }
        else none }
  let isVisible := event_object.visible
  let calls := dispatch s previously_visible isVisible event_object
  pure (d, calls, if type = EventType.refresh then some event_object else none)

/-- Method `_init`: default data, first recompute, then the initial event. -/
def _init (s : Settings) (dom : Dom) : Except JSError (Data × List Call) := do
  let d ← _updateElementVisibility s dom initialData
  let r ← _event EventType.none s dom d
  pure (r.1, r.2.1)

/-! ## Public methods -/

/-- Public method `refresh`. -/
def refresh (s : Settings) (dom : Dom) (d : Data) :
    Except JSError (Data × List Call × Option EventObject) :=
  _event EventType.refresh s dom d

/-- Public method `visible`. -/
def visible (d : Data) : Bool :=
  d.element.visible

/-- The argument of `percent`. -/
inductive Axis where
  | x
  | y
  | other
  deriving DecidableEq

/-- The value `percent` returns: a number or an object. -/
inductive PercentResult where
  | number (n : JSNum)
  | object (p : XY)
  deriving DecidableEq

/-- Public method `percent`. -/
def percent (axis : Axis) (d : Data) : PercentResult :=
  match axis with
  | Axis.x => PercentResult.number d.element.percent.x
  | Axis.y => PercentResult.number d.element.percent.y
  | Axis.other => PercentResult.object { x := d.element.percent.x, y := d.element.percent.y }

/-- Public method `offset`: the next state and the value returned (`none` for `undefined`).
`Object.getPrototypeOf(args)` of a number is `Number.prototype`, so a number takes the first
branch, as `undefined` does. -/
def offset (args : Option OffsetValue) (d : Data) : Data × Option Offset :=
  let offset := d.element.offset
  match args with
  | none => (d, some offset)
  | some (OffsetValue.num _) => (d, some offset)
  | some (OffsetValue.obj a) =>
    ({ d with element := { d.element with offset := assignFields a offset } }, none)

/-- The state that a recompute leaves when the stored offset it applies is `off`: every
field is the value the corresponding method computes from the two rectangles. -/
def recomputed (s : Settings) (dom : Dom) (off : Offset) : Data :=
  let c := contData s dom
  let e := elemData dom.elementRect off
  let p := elementPosition c e
  { container := { rect := some c }
    element :=
      { rect := some e
        position := p
        visible := elementVisibility s c e p
        percent := { x := percentX s e c p, y := percentY s e c p }
        offset := off
        progress := { x := progressX e c, y := progressY e c } } }

/-- Is the call an invocation of `settings.onEnter`? -/
def Call.isEnter (c : Call) : Bool :=
  match c with
  | Call.onEnter _ => true
  | _ => false

/-- Is the call an invocation of `settings.onLeave`? -/
def Call.isLeave (c : Call) : Bool :=
  match c with
  | Call.onLeave _ => true
  | _ => false

/-- Is the call an invocation of `settings.onVisible`? -/
def Call.isVisible (c : Call) : Bool :=
  match c with
  | Call.onVisible _ => true
  | _ => false

/-- How many calls of one kind a call log holds. -/
def invocations (kind : Call → Bool) (calls : List Call) : Nat :=
  (calls.filter kind).length

/-! ## Concrete inputs -/

/-- A 1000 by 800 window with a 200 by 200 element fully inside it. -/
def windowDom : Dom :=
  { windowWidth := 1000
    windowHeight := 800
    containerRect := { left := 0, top := 0, right := 1000, bottom := 800, width := 1000, height := 800 }
    elementRect := { left := 100, top := 100, right := 300, bottom := 300, width := 200, height := 200 } }

/-- The state after a recompute of the default settings on `windowDom`. -/
def windowData : Data :=
  recomputed defaults windowDom (numberOffset 0)

/-- Default settings with a scrollable box, not the window, as the container. -/
def boxSettings : Settings :=
  { defaults with containerIsWindow := false }

/-- A 100 by 100 box whose top is 100 below the viewport's top, and a 100 by 100 element whose
upper half is inside the box. -/
def boxDom : Dom :=
  { windowWidth := 1000
    windowHeight := 800
    containerRect := { left := 0, top := 100, right := 100, bottom := 200, width := 100, height := 100 }
    elementRect := { left := 0, top := 150, right := 100, bottom := 250, width := 100, height := 100 } }

/-- Default settings with `onVisible` set to a value that is not a function. -/
def mutedSettings : Settings :=
  { defaults with onVisible := JSCallback.other }

/-- Default settings with the all-or-nothing policy. -/
def strictSettings : Settings :=
  { defaults with partiallyVisible := false }

/-- The offset object `{ top: 10 }`. -/
def topTen : OffsetObject :=
  { left := JSField.undefined, top := JSField.num 10, right := JSField.undefined,
    bottom := JSField.undefined }

/-- The offset object `{ left: 5, top: 5, right: 5, bottom: 5 }`. -/
def allFive : OffsetObject :=
  { left := JSField.num 5, top := JSField.num 5, right := JSField.num 5, bottom := JSField.num 5 }

/-- The object a call hands to the callback. -/
def Call.payload (c : Call) : EventObject :=
  match c with
  | Call.onEnter e => e
  | Call.onLeave e => e
  | Call.onVisible e => e

/-- Default settings with the offset configured as the object `{ top: 10 }`. -/
def topTenSettings : Settings :=
  { defaults with offset := OffsetValue.obj topTen }

/-- A 1000 by 800 window with an element that is not rendered: its bounding rectangle is
zero in every field. -/
def hiddenDom : Dom :=
  { windowWidth := 1000
    windowHeight := 800
    containerRect := { left := 0, top := 0, right := 1000, bottom := 800, width := 1000, height := 800 }
    elementRect := { left := 0, top := 0, right := 0, bottom := 0, width := 0, height := 0 } }

/-- A window of zero width and height with an element that is not rendered. -/
def emptyDom : Dom :=
  { windowWidth := 0
    windowHeight := 0
    containerRect := { left := 0, top := 0, right := 0, bottom := 0, width := 0, height := 0 }
    elementRect := { left := 0, top := 0, right := 0, bottom := 0, width := 0, height := 0 } }

/-- Scenario B: a 1000 by 800 window and the element rectangle with left 900, top 0,
right 1100, bottom 200, width 200, height 200. -/
def scenarioB : Dom :=
  { windowWidth := 1000
    windowHeight := 800
    containerRect := { left := 0, top := 0, right := 1000, bottom := 800, width := 1000, height := 800 }
    elementRect := { left := 900, top := 0, right := 1100, bottom := 200, width := 200, height := 200 } }

/-- Settings with a box as the container and `ignoreOverflow` enabled. -/
def overflowBoxSettings : Settings :=
  { defaults with containerIsWindow := false, ignoreOverflow := true }

/-- A 1000 by 800 box whose left edge is 500 to the left of the viewport, and an element with
left -100, top -100, right 1200, bottom 900, width 1300, height 1000. -/
def shiftedBoxDom : Dom :=
  { windowWidth := 1000
    windowHeight := 800
    containerRect := { left := -500, top := 0, right := 500, bottom := 800, width := 1000, height := 800 }
    elementRect := { left := -100, top := -100, right := 1200, bottom := 900, width := 1300, height := 1000 } }

/-- Settings with the window as the container and `ignoreOverflow` enabled. -/
def overflowSettings : Settings :=
  { defaults with ignoreOverflow := true }

/-- A 1000 by 800 window and an element that covers it and more on every side. -/
def coverDom : Dom :=
  { windowWidth := 1000
    windowHeight := 800
    containerRect := { left := 0, top := 0, right := 1000, bottom := 800, width := 1000, height := 800 }
    elementRect := { left := -100, top := -100, right := 1200, bottom := 900, width := 1300, height := 1000 } }

/-- A number strictly between 0 and 1 (so neither `NaN` nor infinite). -/
def JSNum.strictlyInside (x : JSNum) : Prop :=
  match x with
  | JSNum.fin q => 0 < q ∧ q < 1
  | _ => False

/-- A rectangle moved by `dx` along X and `dy` along Y. -/
def Rect.translate (r : Rect) (dx dy : ℚ) : Rect :=
  { left := r.left + dx, top := r.top + dy, right := r.right + dx, bottom := r.bottom + dy,
    width := r.width, height := r.height }

/-- The visibility test as two tests, one per axis: on each axis an edge is in view or the
element reaches from before 0 to the container extent or beyond. -/
def axisVisibility (container_rect element_rect : Rect) (position : Position) : Bool :=
  (position.left || position.right ||
    (decide (element_rect.left < 0) && decide (element_rect.right ≥ container_rect.width))) &&
  (position.top || position.bottom ||
    (decide (element_rect.top < 0) && decide (element_rect.bottom ≥ container_rect.height)))

/-- The four branches of `_setElementVisibility` with the test `!position.all` of the fourth
branch left out. -/
def branchesWithoutGuard (container_rect element_rect : Rect) (position : Position) : Bool :=
  if (position.top || position.bottom) && (position.right || position.left) then true
  else if (position.top || position.bottom) &&
      (decide (element_rect.left < 0) &&
        decide (element_rect.right ≥ container_rect.width)) then true
  else if (decide (element_rect.top < 0) &&
        decide (element_rect.bottom ≥ container_rect.height)) &&
      (position.right || position.left) then true
  else if (decide (element_rect.left < 0) &&
        decide (element_rect.right ≥ container_rect.width)) &&
      (decide (element_rect.top < 0) &&
        decide (element_rect.bottom ≥ container_rect.height)) then true
  else false

/-- The rectangles of `boxDom` moved up by 100, so that the box has its top at 0. -/
def movedBoxDom : Dom :=
  { boxDom with
    containerRect := boxDom.containerRect.translate 0 (-100)
    elementRect := boxDom.elementRect.translate 0 (-100) }

/-- The offset object `{ right: 10 }`. -/
def rightTen : OffsetObject :=
  { left := JSField.undefined, top := JSField.undefined, right := JSField.num 10,
    bottom := JSField.undefined }

/-- Default settings with the offset configured as the number 20. -/
def offsetTwentySettings : Settings :=
  { defaults with offset := OffsetValue.num 20 }

/-- The offset object `{ left: 5 }`. -/
def leftFive : OffsetObject :=
  { left := JSField.num 5, top := JSField.undefined, right := JSField.undefined,
    bottom := JSField.undefined }

/-- The offset object `{ left: null, right: true }`. -/
def leftNullRightTrue : OffsetObject :=
  { left := JSField.null, top := JSField.undefined, right := JSField.bool true,
    bottom := JSField.undefined }

/-! ## Binary64 arithmetic

The methods above compute with exact rationals. The definitions below are the same
computations with the result of every addition, subtraction and division rounded to the
nearest binary64 number, as JavaScript does (exponent range not bounded: no overflow to
`Infinity`, no subnormal numbers). -/

/-- The nearest integer, a tie going to the even one. -/
def roundHalfEven (q : ℚ) : ℤ :=
  let f := ⌊q⌋
  if q - f < 1 / 2 then f
  else if 1 / 2 < q - f then f + 1
  else if f % 2 = 0 then f else f + 1

/-- The nearest number with a 53-bit significand, a tie going to the even significand: the
binary64 value of an exact result. -/
def binary64 (q : ℚ) : ℚ :=
  if q = 0 then 0
  else if 0 < q then roundHalfEven (q / 2 ^ (Int.log 2 q - 52)) * 2 ^ (Int.log 2 q - 52)
  else -(roundHalfEven (-q / 2 ^ (Int.log 2 (-q) - 52)) * 2 ^ (Int.log 2 (-q) - 52))

/-- Every field of the rectangle is a binary64 number. -/
def Rect.isBinary64 (r : Rect) : Prop :=
  binary64 r.left = r.left ∧ binary64 r.top = r.top ∧ binary64 r.right = r.right ∧
    binary64 r.bottom = r.bottom ∧ binary64 r.width = r.width ∧ binary64 r.height = r.height

instance (r : Rect) : Decidable r.isBinary64 := by
  unfold Rect.isBinary64
  infer_instance

/-- The JavaScript `a / b` in binary64. -/
def jsDiv64 (a b : ℚ) : JSNum :=
  if b = 0 then
    if a = 0 then JSNum.nan else if 0 < a then JSNum.posInf else JSNum.negInf
  else JSNum.fin (binary64 (a / b))

/-- The object `elem_data` of `_setElementData`, in binary64. -/
def elemData64 (elementRect : Rect) (offset : Offset) : Rect :=
  { left := binary64 (elementRect.left + offset.left)
    top := binary64 (elementRect.top + offset.top)
    right := binary64 (elementRect.right + offset.right.toNumber)
    bottom := binary64 (elementRect.bottom + offset.bottom.toNumber)
    width := binary64 (elementRect.width + binary64 (-offset.left + offset.bottom.toNumber))
    height := binary64 (elementRect.height + binary64 (-offset.top + offset.bottom.toNumber)) }

/-- The object `position` of `_setElementPosition`, in binary64: each difference is rounded
before it is compared. -/
def elementPosition64 (cont_data elem_data : Rect) : Position :=
  let top : Bool := decide (binary64 (cont_data.top - elem_data.top) ≤ 0) &&
    decide (|binary64 (cont_data.top - elem_data.top)| < cont_data.height)
  let bottom : Bool := decide (binary64 (cont_data.bottom - elem_data.bottom) > 0) &&
    decide (|binary64 (cont_data.bottom - elem_data.bottom)| < cont_data.height)
  let left : Bool := decide (binary64 (cont_data.left - elem_data.left) ≤ 0) &&
    decide (|binary64 (cont_data.left - elem_data.left)| < cont_data.width)
  let right : Bool := decide (binary64 (cont_data.right - elem_data.right) > 0) &&
    decide (|binary64 (cont_data.right - elem_data.right)| < cont_data.width)
  { top := top, bottom := bottom, left := left, right := right,
    all := left && top && right && bottom }

/-- Method `_setElementPosition`, in binary64. -/
def _setElementPosition64 (d : Data) : Except JSError Data :=
  match d.container.rect, d.element.rect with
  | some cont_data, some elem_data =>
    Except.ok { d with element := { d.element with position := elementPosition64 cont_data elem_data } }
  | _, _ => Except.error JSError.typeError

/-- The value `percent` of `_getProgressY`, in binary64. -/
def progressY64 (element_rect container_rect : Rect) : JSNum :=
  let calcValue := jsDiv64 (binary64 (element_rect.bottom - container_rect.top))
    (binary64 (container_rect.height + element_rect.height))
  _normalizePercent calcValue

/-- The value `percent` of `_getProgressX`, in binary64. -/
def progressX64 (element_rect container_rect : Rect) : JSNum :=
  let calcValue := jsDiv64 (binary64 (element_rect.right - container_rect.left))
    (binary64 (container_rect.width + element_rect.width))
  _normalizePercent calcValue

/-- The value `ret` of `_getPercentX`, in binary64. -/
def percentX64 (s : Settings) (element_rect container_rect : Rect)
    (element_position : Position) : JSNum :=
  if (element_position.left && !element_position.right) ||
      (!element_position.left && element_position.right) then
    if element_position.left then
      jsDiv64 (binary64 (container_rect.width -
        binary64 (element_rect.left - container_rect.left))) element_rect.width
    else
      jsDiv64 (binary64 (element_rect.right - container_rect.left)) element_rect.width
  else if element_position.left && element_position.right then JSNum.fin 1
  else if !element_position.left && !element_position.right &&
      decide (element_rect.left < 0) &&
      decide (element_rect.right ≥ container_rect.width) then
    if s.ignoreOverflow then JSNum.fin 1
    else jsDiv64 container_rect.width element_rect.width
  else JSNum.fin 0

/-- The value `ret` of `_getPercentY`, in binary64. -/
def percentY64 (s : Settings) (element_rect container_rect : Rect)
    (element_position : Position) : JSNum :=
  if (element_position.top && !element_position.bottom) ||
      (!element_position.top && element_position.bottom) then
    if element_position.top then
      jsDiv64 (binary64 (container_rect.height - element_rect.top)) element_rect.height
    else
      jsDiv64 element_rect.bottom element_rect.height
  else if element_position.top && element_position.bottom then JSNum.fin 1
  else if !element_position.top && !element_position.bottom &&
      decide (element_rect.top < 0) &&
      decide (element_rect.bottom ≥ container_rect.height) then
    if s.ignoreOverflow then JSNum.fin 1
    else jsDiv64 container_rect.height element_rect.height
  else JSNum.fin 0

/-- The state that a recompute leaves in binary64 when the stored offset it applies is
`off`: the fields of `recomputed`, each computed with rounded operations. -/
def recomputed64 (s : Settings) (dom : Dom) (off : Offset) : Data :=
  let c := contData s dom
  let e := elemData64 dom.elementRect off
  let p := elementPosition64 c e
  { container := { rect := some c }
    element :=
      { rect := some e
        position := p
        visible := elementVisibility s c e p
        percent := { x := percentX64 s e c p, y := percentY64 s e c p }
        offset := off
        progress := { x := progressX64 e c, y := progressY64 e c } } }

/-- Method `_setElementData`, in binary64. -/
def _setElementData64 (dom : Dom) (d : Data) : Data :=
  { d with element := { d.element with rect := some (elemData64 dom.elementRect d.element.offset) } }

/-- Method `_getProgressY`, in binary64. -/
def _getProgressY64 (d : Data) : Except JSError JSNum :=
  match d.element.rect, d.container.rect with
  | some element_rect, some container_rect => Except.ok (progressY64 element_rect container_rect)
  | _, _ => Except.error JSError.typeError

/-- Method `_getProgressX`, in binary64. -/
def _getProgressX64 (d : Data) : Except JSError JSNum :=
  match d.element.rect, d.container.rect with
  | some element_rect, some container_rect => Except.ok (progressX64 element_rect container_rect)
  | _, _ => Except.error JSError.typeError

/-- Method `_getPercentX`, in binary64. -/
def _getPercentX64 (s : Settings) (d : Data) : Except JSError JSNum := do
  let element_position := d.element.position
  if (element_position.left && !element_position.right) ||
      (!element_position.left && element_position.right) then
    let container_rect ← readRect d.container.rect
    let element_rect ← readRect d.element.rect
    if element_position.left then
      pure (jsDiv64 (binary64 (container_rect.width -
        binary64 (element_rect.left - container_rect.left))) element_rect.width)
    else
      pure (jsDiv64 (binary64 (element_rect.right - container_rect.left)) element_rect.width)
  else if element_position.left && element_position.right then pure (JSNum.fin 1)
  else do
    let over ← overflowsX d
    if over then
      if s.ignoreOverflow then pure (JSNum.fin 1)
      else do
        let container_rect ← readRect d.container.rect
        let element_rect ← readRect d.element.rect
        pure (jsDiv64 container_rect.width element_rect.width)
    else pure (JSNum.fin 0)

/-- Method `_getPercentY`, in binary64. -/
def _getPercentY64 (s : Settings) (d : Data) : Except JSError JSNum := do
  let element_position := d.element.position
  if (element_position.top && !element_position.bottom) ||
      (!element_position.top && element_position.bottom) then
    let container_rect ← readRect d.container.rect
    let element_rect ← readRect d.element.rect
    if element_position.top then
      pure (jsDiv64 (binary64 (container_rect.height - element_rect.top)) element_rect.height)
    else
      pure (jsDiv64 element_rect.bottom element_rect.height)
  else if element_position.top && element_position.bottom then pure (JSNum.fin 1)
  else do
    let over ← overflowsY d
    if over then
      if s.ignoreOverflow then pure (JSNum.fin 1)
      else do
        let container_rect ← readRect d.container.rect
        let element_rect ← readRect d.element.rect
        pure (jsDiv64 container_rect.height element_rect.height)
    else pure (JSNum.fin 0)

/-- Method `_setElementPercent`, in binary64. -/
def _setElementPercent64 (s : Settings) (d : Data) : Except JSError Data := do
  let percentY ← _getPercentY64 s d
  let percentX ← _getPercentX64 s d
  pure { d with element := { d.element with percent := { x := percentX, y := percentY } } }

/-- Method `_setElementProgress`, in binary64. -/
def _setElementProgress64 (d : Data) : Except JSError Data := do
  let progressY ← _getProgressY64 d
  let progressX ← _getProgressX64 d
  pure { d with element := { d.element with progress := { x := progressX, y := progressY } } }

/-- Method `_updateElementVisibility`, in binary64: the recompute pipeline. The container
step, the offset step and the visibility step do no arithmetic other than negation and are
the ones above. -/
def _updateElementVisibility64 (s : Settings) (dom : Dom) (d : Data) : Except JSError Data := do
  let d := _setContainerData s dom d
  let d ← _setElementOffset none s d
  let d := _setElementData64 dom d
  let d ← _setElementPosition64 d
  let d ← _setElementVisibility s d
  let d ← _setElementPercent64 s d
  _setElementProgress64 d

/-- A 1000 by 800 window and an element whose bottom edge is 2^-45 below the top of the
window: left 100, top -200, right 300, bottom 2^-45, width 200, height 200 + 2^-45. Every
field is a binary64 number. -/
def sliverDom : Dom :=
  { windowWidth := 1000
    windowHeight := 800
    containerRect := { left := 0, top := 0, right := 1000, bottom := 800, width := 1000, height := 800 }
    elementRect :=
      { left := 100, top := -200, right := 300, bottom := 1 / 2 ^ 45, width := 200,
        height := 200 + 1 / 2 ^ 45 } }

/-- The state that holds the two rectangles of `sliverDom`. -/
def sliverData : Data :=
  { initialData with
    container := { rect := some sliverDom.containerRect }
    element := { initialData.element with rect := some sliverDom.elementRect } }

/-! ## The recompute pipeline -/

/-- A numeral as a stored value is the number. -/
@[simp] theorem JSStored.ofNat_eq_num (n : ℕ) :
    (OfNat.ofNat n : JSStored) = JSStored.num (OfNat.ofNat n) :=
  rfl

/-- A number stored as a value reads as itself. -/
@[simp] theorem JSStored.toNumber_num (q : ℚ) : (JSStored.num q).toNumber = q :=
  rfl

/-- When both rectangles are stored, the X overflow test returns its value. -/
theorem overflowsX_some (d : Data) (c e : Rect) (hc : d.container.rect = some c)
    (he : d.element.rect = some e) :
    overflowsX d = Except.ok (decide (e.left < 0) && decide (e.right ≥ c.width)) := by
  simp only [overflowsX, readRect, hc, he, bind, Except.bind, pure, Except.pure]
  split_ifs with h <;> simp [h]

/-- When both rectangles are stored, the Y overflow test returns its value. -/
theorem overflowsY_some (d : Data) (c e : Rect) (hc : d.container.rect = some c)
    (he : d.element.rect = some e) :
    overflowsY d = Except.ok (decide (e.top < 0) && decide (e.bottom ≥ c.height)) := by
  simp only [overflowsY, readRect, hc, he, bind, Except.bind, pure, Except.pure]
  split_ifs with h <;> simp [h]

/-- When both rectangles are stored, `_setElementVisibility` returns and stores the value of
the four branches. -/
theorem setElementVisibility_some (s : Settings) (d : Data) (c e : Rect)
    (hc : d.container.rect = some c) (he : d.element.rect = some e) :
    _setElementVisibility s d = Except.ok { d with element := { d.element with
      visible := elementVisibility s c e d.element.position } } := by
  simp only [_setElementVisibility, overflowsX_some d c e hc he, overflowsY_some d c e hc he,
    elementVisibility]
  generalize decide (e.left < 0) = x1
  generalize decide (e.right ≥ c.width) = x2
  generalize decide (e.top < 0) = y1
  generalize decide (e.bottom ≥ c.height) = y2
  rcases d.element.position with ⟨t, b, l, r, a⟩
  cases s.partiallyVisible <;> cases t <;> cases b <;> cases l <;> cases r <;> cases a <;>
    cases x1 <;> cases x2 <;> cases y1 <;> cases y2 <;> rfl

/-- When both rectangles are stored, `_getPercentX` returns the value of its branches. -/
theorem getPercentX_some (s : Settings) (d : Data) (c e : Rect)
    (hc : d.container.rect = some c) (he : d.element.rect = some e) :
    _getPercentX s d = Except.ok (percentX s e c d.element.position) := by
  simp only [_getPercentX, overflowsX_some d c e hc he, readRect, hc, he, percentX]
  generalize decide (e.left < 0) = x1
  generalize decide (e.right ≥ c.width) = x2
  rcases d.element.position with ⟨t, b, l, r, a⟩
  cases s.ignoreOverflow <;> cases l <;> cases r <;> cases x1 <;> cases x2 <;> rfl

/-- When both rectangles are stored, `_getPercentY` returns the value of its branches. -/
theorem getPercentY_some (s : Settings) (d : Data) (c e : Rect)
    (hc : d.container.rect = some c) (he : d.element.rect = some e) :
    _getPercentY s d = Except.ok (percentY s e c d.element.position) := by
  simp only [_getPercentY, overflowsY_some d c e hc he, readRect, hc, he, percentY]
  generalize decide (e.top < 0) = y1
  generalize decide (e.bottom ≥ c.height) = y2
  rcases d.element.position with ⟨t, b, l, r, a⟩
  cases s.ignoreOverflow <;> cases t <;> cases b <;> cases y1 <;> cases y2 <;> rfl

/-- With a number configured as the offset, `_updateElementVisibility` returns, and the state
it leaves is made of the values computed from the two rectangles and the offset `numberOffset n`. -/
theorem updateElementVisibility_num (s : Settings) (dom : Dom) (d : Data) (n : ℚ)
    (h : s.offset = OffsetValue.num n) :
    _updateElementVisibility s dom d = Except.ok (recomputed s dom (numberOffset n)) := by
  simp only [_updateElementVisibility, _setElementOffset, offsetSetting, h, _setElementData,
    _setContainerData, _setElementPosition, bind, Except.bind]
  rw [setElementVisibility_some s _ (contData s dom) (elemData dom.elementRect (numberOffset n))
    rfl rfl]
  simp only [_setElementPercent, bind, Except.bind]
  rw [getPercentY_some s _ (contData s dom) (elemData dom.elementRect (numberOffset n)) rfl rfl,
    getPercentX_some s _ (contData s dom) (elemData dom.elementRect (numberOffset n)) rfl rfl]
  simp [_setElementProgress, _getProgressX, _getProgressY, bind, Except.bind, pure,
    Except.pure, recomputed]

/-- With a plain object configured as the offset, `_updateElementVisibility` raises. -/
theorem updateElementVisibility_obj (s : Settings) (dom : Dom) (d : Data) (o : OffsetObject)
    (h : s.offset = OffsetValue.obj o) :
    _updateElementVisibility s dom d = Except.error JSError.typeError := by
  simp [_updateElementVisibility, _setElementOffset, offsetSetting, h, bind, Except.bind]

/-- Whenever `_updateElementVisibility` returns, the configured offset is a number `n` and
the state is `recomputed` at `numberOffset n`. -/
theorem updateElementVisibility_ok (s : Settings) (dom : Dom) (d d' : Data)
    (h : _updateElementVisibility s dom d = Except.ok d') :
    ∃ n, s.offset = OffsetValue.num n ∧ d' = recomputed s dom (numberOffset n) := by
  cases hs : s.offset with
  | num n =>
    rw [updateElementVisibility_num s dom d n hs] at h
    exact ⟨n, rfl, (Except.ok.inj h).symm⟩
  | obj o =>
    rw [updateElementVisibility_obj s dom d o hs] at h
    cases h

/-- For a container with bottom = top + height, the top edge is in view exactly when it lies
at or after the container top and before the container bottom. -/
theorem position_top_iff (c e : Rect) (h : c.bottom = c.top + c.height) :
    (elementPosition c e).top = true ↔ (c.top ≤ e.top ∧ e.top < c.bottom) := by
  simp only [elementPosition, Bool.and_eq_true, decide_eq_true_eq, abs_lt]
  constructor
  · rintro ⟨h1, h2, h3⟩
    exact ⟨by linarith, by linarith⟩
  · rintro ⟨h1, h2⟩
    exact ⟨by linarith, by linarith, by linarith⟩

/-- For a container with bottom = top + height, the bottom edge is in view exactly when it
lies strictly between the container top and the container bottom. -/
theorem position_bottom_iff (c e : Rect) (h : c.bottom = c.top + c.height) :
    (elementPosition c e).bottom = true ↔ (c.top < e.bottom ∧ e.bottom < c.bottom) := by
  simp only [elementPosition, Bool.and_eq_true, decide_eq_true_eq, abs_lt]
  constructor
  · rintro ⟨h1, h2, h3⟩
    exact ⟨by linarith, by linarith⟩
  · rintro ⟨h1, h2⟩
    exact ⟨by linarith, by linarith, by linarith⟩


/-- A quotient with a divisor other than zero is normalised into the interval from 0 to 1. -/
theorem normalizePercent_jsDiv_inUnit (a b : ℚ) (hb : b ≠ 0) :
    (_normalizePercent (jsDiv a b)).inUnit := by
  simp only [jsDiv, hb, if_false, _normalizePercent, JSNum.gt, JSNum.lt]
  split_ifs with h1 h2
  · simp [JSNum.inUnit]
  · simp [JSNum.inUnit]
  · simp only [decide_eq_true_eq, not_lt] at h1 h2
    exact ⟨h2, h1⟩

/-- Claim C2: when the container extent plus the element extent is positive on each axis,
`_getProgressX` and `_getProgressY` return, and both results lie in the closed interval from
0 to 1. -/
theorem getProgress_inUnit (d : Data) (c e : Rect) (hc : d.container.rect = some c)
    (he : d.element.rect = some e) (hx : 0 < c.width + e.width)
    (hy : 0 < c.height + e.height) :
    ∃ px py, _getProgressX d = Except.ok px ∧ _getProgressY d = Except.ok py ∧
      px.inUnit ∧ py.inUnit := by
  refine ⟨progressX e c, progressY e c, ?_, ?_, ?_, ?_⟩
  · simp [_getProgressX, hc, he]
  · simp [_getProgressY, hc, he]
  · exact normalizePercent_jsDiv_inUnit _ _ (ne_of_gt hx)
  · exact normalizePercent_jsDiv_inUnit _ _ (ne_of_gt hy)

/-- With a number configured as the offset, `_event` returns the recomputed state and the
callbacks that `dispatch` selects. -/
theorem event_num (type : EventType) (s : Settings) (dom : Dom) (d : Data) (n : ℚ)
    (h : s.offset = OffsetValue.num n) :
    ∃ ev ret, _event type s dom d = Except.ok (recomputed s dom (numberOffset n),
      dispatch s d.element.visible (recomputed s dom (numberOffset n)).element.visible ev, ret) := by
  simp [_event, updateElementVisibility_num s dom d n h, bind, Except.bind, pure, Except.pure]

/-- Whenever `_event` returns, its state is that of the recompute and its calls are those
that `dispatch` selects for the old and the new visibility. -/
theorem event_ok (type : EventType) (s : Settings) (dom : Dom) (d d' : Data) (calls : List Call)
    (ret : Option EventObject) (h : _event type s dom d = Except.ok (d', calls, ret)) :
    _updateElementVisibility s dom d = Except.ok d' ∧
      ∃ ev, calls = dispatch s d.element.visible d'.element.visible ev := by
  unfold _event at h
  cases hu : _updateElementVisibility s dom d with
  | error err => simp [hu, bind, Except.bind] at h
  | ok d1 =>
    simp only [hu, bind, Except.bind, pure, Except.pure, Except.ok.injEq, Prod.mk.injEq] at h
    obtain ⟨h1, h2, -⟩ := h
    subst h1
    exact ⟨rfl, _, h2.symm⟩

/-- With `onEnter` a function, it is called once when the element became visible, else not. -/
theorem dispatch_enter (s : Settings) (p v : Bool) (ev : EventObject)
    (hE : isFunction s.onEnter = true) :
    invocations Call.isEnter (dispatch s p v ev) = if v = true ∧ p = false then 1 else 0 := by
  cases p <;> cases v <;> cases hl : isFunction s.onLeave <;> cases hv : isFunction s.onVisible <;>
    simp [dispatch, invocations, hE, hl, hv, Call.isEnter]

/-- With `onLeave` a function, it is called once when the element stopped being visible, else
not. -/
theorem dispatch_leave (s : Settings) (p v : Bool) (ev : EventObject)
    (hL : isFunction s.onLeave = true) :
    invocations Call.isLeave (dispatch s p v ev) = if v = false ∧ p = true then 1 else 0 := by
  cases p <;> cases v <;> cases he : isFunction s.onEnter <;> cases hv : isFunction s.onVisible <;>
    simp [dispatch, invocations, hL, he, hv, Call.isLeave]

/-- The callback `onVisible` is called once when the element is visible and the callback is
a function, else not. -/
theorem dispatch_visible (s : Settings) (p v : Bool) (ev : EventObject) :
    invocations Call.isVisible (dispatch s p v ev) =
      if v = true ∧ isFunction s.onVisible = true then 1 else 0 := by
  cases p <;> cases v <;> cases he : isFunction s.onEnter <;> cases hl : isFunction s.onLeave <;>
    cases hv : isFunction s.onVisible <;>
    simp [dispatch, invocations, he, hl, hv, Call.isVisible]

/-- Claim C3: on a tick of `_event` with `onEnter` and `onLeave` functions, when the new
visibility differs from the previous one exactly one of the two is invoked, once (`onEnter`
when now visible, `onLeave` when now not visible), and when it is unchanged neither is
invoked; whatever `onVisible` is. With a number as the configured offset the tick returns. -/
theorem event_enter_leave (type : EventType) (s : Settings) (dom : Dom) (d : Data)
    (hE : isFunction s.onEnter = true) (hL : isFunction s.onLeave = true) :
    (∀ d' calls ret, _event type s dom d = Except.ok (d', calls, ret) →
      (d'.element.visible ≠ d.element.visible →
        (d'.element.visible = true →
          invocations Call.isEnter calls = 1 ∧ invocations Call.isLeave calls = 0) ∧
        (d'.element.visible = false →
          invocations Call.isEnter calls = 0 ∧ invocations Call.isLeave calls = 1)) ∧
      (d'.element.visible = d.element.visible →
        invocations Call.isEnter calls = 0 ∧ invocations Call.isLeave calls = 0)) ∧
    (∀ n, s.offset = OffsetValue.num n → ∃ r, _event type s dom d = Except.ok r) := by
  constructor
  · intro d' calls ret h
    obtain ⟨-, ev, rfl⟩ := event_ok type s dom d d' calls ret h
    rw [dispatch_enter s _ _ ev hE, dispatch_leave s _ _ ev hL]
    cases d'.element.visible <;> cases d.element.visible <;> simp
  · intro n hn
    obtain ⟨ev, ret, h⟩ := event_num type s dom d n hn
    exact ⟨_, h⟩

/-- Claim C4, amended: on a tick of `_event` with `onVisible` a function, `onVisible` is
invoked exactly once when the new visibility is true (also on a tick that invokes `onEnter`)
and not at all when it is false. With a number as the configured offset the tick returns. -/
theorem event_onVisible (type : EventType) (s : Settings) (dom : Dom) (d : Data)
    (hV : isFunction s.onVisible = true) :
    (∀ d' calls ret, _event type s dom d = Except.ok (d', calls, ret) →
      (d'.element.visible = true → invocations Call.isVisible calls = 1) ∧
      (d'.element.visible = false → invocations Call.isVisible calls = 0)) ∧
    (∀ n, s.offset = OffsetValue.num n → ∃ r, _event type s dom d = Except.ok r) := by
  constructor
  · intro d' calls ret h
    obtain ⟨-, ev, rfl⟩ := event_ok type s dom d d' calls ret h
    rw [dispatch_visible s _ _ ev]
    cases d'.element.visible <;> simp [hV]
  · intro n hn
    obtain ⟨ev, ret, h⟩ := event_num type s dom d n hn
    exact ⟨_, h⟩

/-- For a container with right = left + width, the left edge is in view exactly when it lies
at or after the container left and before the container right. -/
theorem position_left_iff (c e : Rect) (h : c.right = c.left + c.width) :
    (elementPosition c e).left = true ↔ (c.left ≤ e.left ∧ e.left < c.right) := by
  simp only [elementPosition, Bool.and_eq_true, decide_eq_true_eq, abs_lt]
  constructor
  · rintro ⟨h1, h2, h3⟩
    exact ⟨by linarith, by linarith⟩
  · rintro ⟨h1, h2⟩
    exact ⟨by linarith, by linarith, by linarith⟩

/-- For a container with right = left + width, the right edge is in view exactly when it
lies strictly between the container left and the container right. -/
theorem position_right_iff (c e : Rect) (h : c.right = c.left + c.width) :
    (elementPosition c e).right = true ↔ (c.left < e.right ∧ e.right < c.right) := by
  simp only [elementPosition, Bool.and_eq_true, decide_eq_true_eq, abs_lt]
  constructor
  · rintro ⟨h1, h2, h3⟩
    exact ⟨by linarith, by linarith⟩
  · rintro ⟨h1, h2⟩
    exact ⟨by linarith, by linarith, by linarith⟩

/-- The field `all` of a computed position is the conjunction of the four edges. -/
theorem position_all_eq (c e : Rect) :
    (elementPosition c e).all = ((elementPosition c e).left && (elementPosition c e).top &&
      (elementPosition c e).right && (elementPosition c e).bottom) := rfl

/-- The offset of the number 0 leaves the element rectangle as it is. -/
theorem elemData_zero (r : Rect) : elemData r (numberOffset 0) = r := by
  cases r
  simp [elemData, numberOffset]

/-- The container rectangle of a window container. -/
theorem contData_window (s : Settings) (dom : Dom) (h : s.containerIsWindow = true) :
    contData s dom =
      ⟨0, 0, dom.windowWidth, dom.windowHeight, dom.windowWidth, dom.windowHeight⟩ := by
  simp [contData, h]

/-- With `partiallyVisible` enabled and `all` the conjunction of the four edges, the four
branches of `_setElementVisibility` amount to one test per axis. -/
theorem elementVisibility_axes (s : Settings) (c e : Rect) (p : Position)
    (hpv : s.partiallyVisible = true)
    (hall : p.all = (p.left && p.top && p.right && p.bottom)) :
    elementVisibility s c e p = true ↔
      ((p.left = true ∨ p.right = true ∨ (e.left < 0 ∧ c.width ≤ e.right)) ∧
       (p.top = true ∨ p.bottom = true ∨ (e.top < 0 ∧ c.height ≤ e.bottom))) := by
  rcases p with ⟨t, b, l, r, a⟩
  simp only at hall
  subst hall
  cases t <;> cases b <;> cases l <;> cases r <;>
    simp [elementVisibility, hpv] <;> tauto

/-- Claim C6: with `partiallyVisible` enabled, in the state a recompute leaves
`position.all = true` implies `visible = true`; with a number as the configured offset the
recompute returns. -/
theorem recompute_all_visible (s : Settings) (dom : Dom) (d : Data)
    (hpv : s.partiallyVisible = true) :
    (∀ d', _updateElementVisibility s dom d = Except.ok d' →
      d'.element.position.all = true → d'.element.visible = true) ∧
    (∀ n, s.offset = OffsetValue.num n → ∃ d', _updateElementVisibility s dom d = Except.ok d') := by
  constructor
  · intro d' h hall
    obtain ⟨n, -, rfl⟩ := updateElementVisibility_ok s dom d d' h
    simp only [recomputed] at hall ⊢
    rw [elementVisibility_axes s _ _ _ hpv (position_all_eq _ _)]
    rw [position_all_eq] at hall
    simp only [Bool.and_eq_true] at hall
    exact ⟨Or.inl hall.1.1.1, Or.inl hall.1.1.2⟩
  · intro n hn
    exact ⟨_, updateElementVisibility_num s dom d n hn⟩

/-- Claim C7: with `partiallyVisible` disabled, `_setElementVisibility` run on a state that
holds both rectangles returns, keeps the position, and sets `visible` to true exactly when
`position.all` is true; the same holds of the state every recompute leaves. -/
theorem setElementVisibility_strict (s : Settings) (hpv : s.partiallyVisible = false) :
    (∀ (d : Data) (c e : Rect), d.container.rect = some c → d.element.rect = some e →
      ∃ d', _setElementVisibility s d = Except.ok d' ∧
        d'.element.position = d.element.position ∧
        (d'.element.visible = true ↔ d'.element.position.all = true)) ∧
    (∀ (dom : Dom) (d d' : Data), _updateElementVisibility s dom d = Except.ok d' →
      (d'.element.visible = true ↔ d'.element.position.all = true)) := by
  constructor
  · intro d c e hc he
    refine ⟨{ d with element := { d.element with
      visible := elementVisibility s c e d.element.position } }, ?_, rfl, ?_⟩
    · exact setElementVisibility_some s d c e hc he
    · simp [elementVisibility, hpv]
  · intro dom d d' h
    obtain ⟨n, -, rfl⟩ := updateElementVisibility_ok s dom d d' h
    simp [recomputed, elementVisibility, hpv]

/-- The value of `_getPercentX` for a window container: the overlap of the two intervals on
the X axis over the element width. -/
theorem percentX_window (s : Settings) (e : Rect) (W H : ℚ) (hio : s.ignoreOverflow = false)
    (hW : 0 < W) (hw : e.width = e.right - e.left) (hpos : 0 < e.width) :
    percentX s e ⟨0, 0, W, H, W, H⟩ (elementPosition ⟨0, 0, W, H, W, H⟩ e) =
      JSNum.fin (max 0 (min e.right W - max e.left 0) / e.width) := by
  have hL := position_left_iff ⟨0, 0, W, H, W, H⟩ e (by simp)
  have hR := position_right_iff ⟨0, 0, W, H, W, H⟩ e (by simp)
  simp only at hL hR
  have hne : e.width ≠ 0 := ne_of_gt hpos
  have hlr : e.left < e.right := by linarith
  cases hl : (elementPosition ⟨0, 0, W, H, W, H⟩ e).left <;>
    cases hr : (elementPosition ⟨0, 0, W, H, W, H⟩ e).right
  · -- neither edge in view
    have h1 : ¬ (0 ≤ e.left ∧ e.left < W) := by rw [← hL, hl]; simp
    have h2 : ¬ (0 < e.right ∧ e.right < W) := by rw [← hR, hr]; simp
    by_cases hs : e.left < 0 ∧ W ≤ e.right
    · have : max 0 (min e.right W - max e.left 0) = W := by
        rw [min_eq_right hs.2, max_eq_right (le_of_lt hs.1)]
        simp [le_of_lt hW]
      rw [this]
      simp [percentX, hl, hr, hs.1, hs.2, hio, jsDiv, hne]
    · have : max 0 (min e.right W - max e.left 0) = 0 := by
        apply max_eq_left
        by_cases h0 : e.left < 0
        · have hrW : e.right < W := by
            by_contra hc
            exact hs ⟨h0, not_lt.mp hc⟩
          have hr0 : e.right ≤ 0 := by
            by_contra hc
            exact h2 ⟨not_le.mp hc, hrW⟩
          rw [min_eq_left (le_of_lt hrW), max_eq_right (le_of_lt h0)]
          linarith
        · have h0 : 0 ≤ e.left := not_lt.mp h0
          have hlW : W ≤ e.left := by
            by_contra hc
            exact h1 ⟨h0, not_le.mp hc⟩
          rw [min_eq_right (by linarith), max_eq_left h0]
          linarith
      rw [this]
      simp only [percentX, hl, hr]
      simp only [not_and, not_le] at hs
      simp
      intro h0 hW'
      exact absurd hW' (not_le.mpr (hs h0))
  · -- only the right edge in view
    have h1 : ¬ (0 ≤ e.left ∧ e.left < W) := by rw [← hL, hl]; simp
    have h2 : 0 < e.right ∧ e.right < W := by rw [← hR, hr]
    have h0 : e.left < 0 := by
      by_contra hc
      exact h1 ⟨not_lt.mp hc, by linarith [h2.2]⟩
    have : max 0 (min e.right W - max e.left 0) = e.right := by
      rw [min_eq_left (le_of_lt h2.2), max_eq_right (le_of_lt h0)]
      simp [le_of_lt h2.1]
    rw [this]
    simp [percentX, hl, hr, jsDiv, hne]
  · -- only the left edge in view
    have h1 : 0 ≤ e.left ∧ e.left < W := by rw [← hL, hl]
    have h2 : ¬ (0 < e.right ∧ e.right < W) := by rw [← hR, hr]; simp
    have hW : W ≤ e.right := by
      by_contra hc
      exact h2 ⟨by linarith [h1.1], not_le.mp hc⟩
    have : max 0 (min e.right W - max e.left 0) = W - e.left := by
      rw [min_eq_right hW, max_eq_left h1.1]
      apply max_eq_right
      linarith [h1.2]
    rw [this]
    simp [percentX, hl, hr, jsDiv, hne]
  · -- both edges in view
    have h1 : 0 ≤ e.left ∧ e.left < W := by rw [← hL, hl]
    have h2 : 0 < e.right ∧ e.right < W := by rw [← hR, hr]
    have : max 0 (min e.right W - max e.left 0) = e.width := by
      rw [min_eq_left (le_of_lt h2.2), max_eq_left h1.1, hw]
      apply max_eq_right
      linarith
    rw [this]
    simp [percentX, hl, hr, hne]

/-- The value of `_getPercentY` for a window container: the overlap of the two intervals on
the Y axis over the element height. -/
theorem percentY_window (s : Settings) (e : Rect) (W H : ℚ) (hio : s.ignoreOverflow = false)
    (hH : 0 < H) (hw : e.height = e.bottom - e.top) (hpos : 0 < e.height) :
    percentY s e ⟨0, 0, W, H, W, H⟩ (elementPosition ⟨0, 0, W, H, W, H⟩ e) =
      JSNum.fin (max 0 (min e.bottom H - max e.top 0) / e.height) := by
  have hL := position_top_iff ⟨0, 0, W, H, W, H⟩ e (by simp)
  have hR := position_bottom_iff ⟨0, 0, W, H, W, H⟩ e (by simp)
  simp only at hL hR
  have hne : e.height ≠ 0 := ne_of_gt hpos
  have hlr : e.top < e.bottom := by linarith
  cases hl : (elementPosition ⟨0, 0, W, H, W, H⟩ e).top <;>
    cases hr : (elementPosition ⟨0, 0, W, H, W, H⟩ e).bottom
  · -- neither edge in view
    have h1 : ¬ (0 ≤ e.top ∧ e.top < H) := by rw [← hL, hl]; simp
    have h2 : ¬ (0 < e.bottom ∧ e.bottom < H) := by rw [← hR, hr]; simp
    by_cases hs : e.top < 0 ∧ H ≤ e.bottom
    · have : max 0 (min e.bottom H - max e.top 0) = H := by
        rw [min_eq_right hs.2, max_eq_right (le_of_lt hs.1)]
        simp [le_of_lt hH]
      rw [this]
      simp [percentY, hl, hr, hs.1, hs.2, hio, jsDiv, hne]
    · have : max 0 (min e.bottom H - max e.top 0) = 0 := by
        apply max_eq_left
        by_cases h0 : e.top < 0
        · have hrW : e.bottom < H := by
            by_contra hc
            exact hs ⟨h0, not_lt.mp hc⟩
          have hr0 : e.bottom ≤ 0 := by
            by_contra hc
            exact h2 ⟨not_le.mp hc, hrW⟩
          rw [min_eq_left (le_of_lt hrW), max_eq_right (le_of_lt h0)]
          linarith
        · have h0 : 0 ≤ e.top := not_lt.mp h0
          have hlW : H ≤ e.top := by
            by_contra hc
            exact h1 ⟨h0, not_le.mp hc⟩
          rw [min_eq_right (by linarith), max_eq_left h0]
          linarith
      rw [this]
      simp only [percentY, hl, hr]
      simp only [not_and, not_le] at hs
      simp
      intro h0 hH'
      exact absurd hH' (not_le.mpr (hs h0))
  · -- only the bottom edge in view
    have h1 : ¬ (0 ≤ e.top ∧ e.top < H) := by rw [← hL, hl]; simp
    have h2 : 0 < e.bottom ∧ e.bottom < H := by rw [← hR, hr]
    have h0 : e.top < 0 := by
      by_contra hc
      exact h1 ⟨not_lt.mp hc, by linarith [h2.2]⟩
    have : max 0 (min e.bottom H - max e.top 0) = e.bottom := by
      rw [min_eq_left (le_of_lt h2.2), max_eq_right (le_of_lt h0)]
      simp [le_of_lt h2.1]
    rw [this]
    simp [percentY, hl, hr, jsDiv, hne]
  · -- only the top edge in view
    have h1 : 0 ≤ e.top ∧ e.top < H := by rw [← hL, hl]
    have h2 : ¬ (0 < e.bottom ∧ e.bottom < H) := by rw [← hR, hr]; simp
    have hH : H ≤ e.bottom := by
      by_contra hc
      exact h2 ⟨by linarith [h1.1], not_le.mp hc⟩
    have : max 0 (min e.bottom H - max e.top 0) = H - e.top := by
      rw [min_eq_right hH, max_eq_left h1.1]
      apply max_eq_right
      linarith [h1.2]
    rw [this]
    simp [percentY, hl, hr, jsDiv, hne]
  · -- both edges in view
    have h1 : 0 ≤ e.top ∧ e.top < H := by rw [← hL, hl]
    have h2 : 0 < e.bottom ∧ e.bottom < H := by rw [← hR, hr]
    have : max 0 (min e.bottom H - max e.top 0) = e.height := by
      rw [min_eq_left (le_of_lt h2.2), max_eq_left h1.1, hw]
      apply max_eq_right
      linarith
    rw [this]
    simp [percentY, hl, hr, hne]

/-- Claim C8: with offset 0, `ignoreOverflow` false and the window as the container, for an
element with width = right - left > 0 and height = bottom - top > 0 the recompute returns and
the percent on each axis is the length of the intersection of the element's interval with
the window's interval divided by the element's extent. -/
theorem percent_window (s : Settings) (dom : Dom) (d : Data)
    (hoff : s.offset = OffsetValue.num 0) (hio : s.ignoreOverflow = false)
    (hwin : s.containerIsWindow = true) (hW : 0 < dom.windowWidth) (hH : 0 < dom.windowHeight)
    (hw : dom.elementRect.width = dom.elementRect.right - dom.elementRect.left)
    (hwpos : 0 < dom.elementRect.width)
    (hh : dom.elementRect.height = dom.elementRect.bottom - dom.elementRect.top)
    (hhpos : 0 < dom.elementRect.height) :
    ∃ d', _updateElementVisibility s dom d = Except.ok d' ∧
      d'.element.percent.x = JSNum.fin
        (max 0 (min dom.elementRect.right dom.windowWidth - max dom.elementRect.left 0) /
          dom.elementRect.width) ∧
      d'.element.percent.y = JSNum.fin
        (max 0 (min dom.elementRect.bottom dom.windowHeight - max dom.elementRect.top 0) /
          dom.elementRect.height) := by
  refine ⟨_, updateElementVisibility_num s dom d 0 hoff, ?_, ?_⟩
  · simp only [recomputed, elemData_zero, contData_window s dom hwin]
    exact percentX_window s dom.elementRect _ _ hio hW hw hwpos
  · simp only [recomputed, elemData_zero, contData_window s dom hwin]
    exact percentY_window s dom.elementRect _ _ hio hH hh hhpos

/-! ## Evaluations at concrete inputs -/

/-- Claim C1, the code at a failing input: default settings, a container box
{left 0, top 100, right 100, bottom 200, width 100, height 100} and an element
{left 0, top 150, right 100, bottom 250, width 100, height 100}. The recompute returns, the
element is visible, and `percent.y` is `(100 - 150) / 100 = -1/2`, outside the interval from
0 to 1: `_getPercentY` does not subtract `container_rect.top`. -/
theorem percentY_outside_unit :
    ∃ d', _updateElementVisibility boxSettings boxDom initialData = Except.ok d' ∧
      d'.element.visible = true ∧
      d'.element.percent.y = JSNum.fin (-1 / 2) ∧ ¬ d'.element.percent.y.inUnit := by
  refine ⟨_, updateElementVisibility_num boxSettings boxDom initialData 0 rfl, ?_, ?_, ?_⟩
  · norm_num [recomputed, contData, elemData, numberOffset, elementPosition, elementVisibility,
      boxDom, boxSettings, defaults, abs_lt]
  · norm_num [recomputed, contData, elemData, numberOffset, elementPosition, percentY, jsDiv,
      boxDom, boxSettings, defaults, abs_lt]
  · norm_num [recomputed, contData, elemData, numberOffset, elementPosition, percentY, jsDiv,
      boxDom, boxSettings, defaults, abs_lt, JSNum.inUnit]

/-- Claim C2 at a concrete input: the state of `windowData`. -/
theorem getProgress_inUnit_witness :
    (windowData.container.rect = some ⟨0, 0, 1000, 800, 1000, 800⟩ ∧
      windowData.element.rect = some ⟨100, 100, 300, 300, 200, 200⟩ ∧
      (0 : ℚ) < 1000 + 200 ∧ (0 : ℚ) < 800 + 200) ∧
    ∃ px py, _getProgressX windowData = Except.ok px ∧ _getProgressY windowData = Except.ok py ∧
      px.inUnit ∧ py.inUnit :=
  have hc : windowData.container.rect = some ⟨0, 0, 1000, 800, 1000, 800⟩ := by
    simp [windowData, recomputed, contData, defaults, windowDom]
  have he : windowData.element.rect = some ⟨100, 100, 300, 300, 200, 200⟩ := by
    norm_num [windowData, recomputed, elemData, numberOffset, windowDom]
  ⟨⟨hc, he, by norm_num, by norm_num⟩,
    getProgress_inUnit windowData _ _ hc he (by norm_num) (by norm_num)⟩

/-- Claim C3 at a concrete input: the first scroll tick of the default settings on
`windowDom`, from the initial data. -/
theorem event_enter_leave_witness :
    (isFunction defaults.onEnter = true ∧ isFunction defaults.onLeave = true) ∧
    ((∀ d' calls ret,
      _event EventType.scroll defaults windowDom initialData = Except.ok (d', calls, ret) →
      (d'.element.visible ≠ initialData.element.visible →
        (d'.element.visible = true →
          invocations Call.isEnter calls = 1 ∧ invocations Call.isLeave calls = 0) ∧
        (d'.element.visible = false →
          invocations Call.isEnter calls = 0 ∧ invocations Call.isLeave calls = 1)) ∧
      (d'.element.visible = initialData.element.visible →
        invocations Call.isEnter calls = 0 ∧ invocations Call.isLeave calls = 0)) ∧
    (∀ n, defaults.offset = OffsetValue.num n →
      ∃ r, _event EventType.scroll defaults windowDom initialData = Except.ok r)) :=
  ⟨⟨rfl, rfl⟩, event_enter_leave EventType.scroll defaults windowDom initialData rfl rfl⟩

/-- Claim C4 as stated fails: with `onVisible` set to a value that is not a function, a
scroll tick on `windowDom` computes `visible = true` and invokes `onVisible` zero times. -/
theorem onVisible_other_not_invoked :
    ∃ d' calls ret, _event EventType.scroll mutedSettings windowDom initialData =
        Except.ok (d', calls, ret) ∧
      d'.element.visible = true ∧ invocations Call.isVisible calls = 0 := by
  obtain ⟨ev, ret, h⟩ := event_num EventType.scroll mutedSettings windowDom initialData 0 rfl
  refine ⟨_, _, _, h, ?_, ?_⟩
  · norm_num [recomputed, contData, elemData, numberOffset, elementPosition, elementVisibility,
      windowDom, mutedSettings, defaults, abs_lt]
  · rw [dispatch_visible]
    simp [mutedSettings, isFunction]

/-- Claim C4, amended, at a concrete input: the first scroll tick of the default settings on
`windowDom`. -/
theorem event_onVisible_witness :
    isFunction defaults.onVisible = true ∧
    ((∀ d' calls ret,
      _event EventType.scroll defaults windowDom initialData = Except.ok (d', calls, ret) →
      (d'.element.visible = true → invocations Call.isVisible calls = 1) ∧
      (d'.element.visible = false → invocations Call.isVisible calls = 0)) ∧
    (∀ n, defaults.offset = OffsetValue.num n →
      ∃ r, _event EventType.scroll defaults windowDom initialData = Except.ok r)) :=
  ⟨rfl, event_onVisible EventType.scroll defaults windowDom initialData rfl⟩

/-- Claim C6 at a concrete input: the default settings on `windowDom`. -/
theorem recompute_all_visible_witness :
    defaults.partiallyVisible = true ∧
    ((∀ d', _updateElementVisibility defaults windowDom initialData = Except.ok d' →
      d'.element.position.all = true → d'.element.visible = true) ∧
    (∀ n, defaults.offset = OffsetValue.num n →
      ∃ d', _updateElementVisibility defaults windowDom initialData = Except.ok d')) :=
  ⟨rfl, recompute_all_visible defaults windowDom initialData rfl⟩

/-- Claim C7 at a concrete input: the all-or-nothing settings `strictSettings`. -/
theorem setElementVisibility_strict_witness :
    strictSettings.partiallyVisible = false ∧
    ((∀ (d : Data) (c e : Rect), d.container.rect = some c → d.element.rect = some e →
      ∃ d', _setElementVisibility strictSettings d = Except.ok d' ∧
        d'.element.position = d.element.position ∧
        (d'.element.visible = true ↔ d'.element.position.all = true)) ∧
    (∀ (dom : Dom) (d d' : Data),
      _updateElementVisibility strictSettings dom d = Except.ok d' →
      (d'.element.visible = true ↔ d'.element.position.all = true))) :=
  ⟨rfl, setElementVisibility_strict strictSettings rfl⟩

/-- Claim C8 at a concrete input: the default settings on `windowDom`. -/
theorem percent_window_witness :
    (defaults.offset = OffsetValue.num 0 ∧ defaults.ignoreOverflow = false ∧
      defaults.containerIsWindow = true ∧ 0 < windowDom.windowWidth ∧
      0 < windowDom.windowHeight ∧
      windowDom.elementRect.width = windowDom.elementRect.right - windowDom.elementRect.left ∧
      0 < windowDom.elementRect.width ∧
      windowDom.elementRect.height = windowDom.elementRect.bottom - windowDom.elementRect.top ∧
      0 < windowDom.elementRect.height) ∧
    ∃ d', _updateElementVisibility defaults windowDom initialData = Except.ok d' ∧
      d'.element.percent.x = JSNum.fin
        (max 0 (min windowDom.elementRect.right windowDom.windowWidth -
          max windowDom.elementRect.left 0) / windowDom.elementRect.width) ∧
      d'.element.percent.y = JSNum.fin
        (max 0 (min windowDom.elementRect.bottom windowDom.windowHeight -
          max windowDom.elementRect.top 0) / windowDom.elementRect.height) :=
  have hW : 0 < windowDom.windowWidth := by norm_num [windowDom]
  have hH : 0 < windowDom.windowHeight := by norm_num [windowDom]
  have hw : windowDom.elementRect.width =
      windowDom.elementRect.right - windowDom.elementRect.left := by norm_num [windowDom]
  have hwpos : 0 < windowDom.elementRect.width := by norm_num [windowDom]
  have hh : windowDom.elementRect.height =
      windowDom.elementRect.bottom - windowDom.elementRect.top := by norm_num [windowDom]
  have hhpos : 0 < windowDom.elementRect.height := by norm_num [windowDom]
  ⟨⟨rfl, rfl, rfl, hW, hH, hw, hwpos, hh, hhpos⟩,
    percent_window defaults windowDom initialData rfl rfl rfl hW hH hw hwpos hh hhpos⟩

/-- Claim C9, the code at a failing input: default settings (configured offset 0), any state.
The setter `offset({ top: 10 })` stores `top = -10`; the `refresh()` that follows returns,
and leaves the stored offset at zero on every side and the effective rectangle equal to the
raw element rectangle: `_setElementOffset` rebuilds the offset from `settings.offset`. -/
theorem offset_reset_by_recompute (d : Data) :
    (offset (some (OffsetValue.obj topTen)) d).1.element.offset.top = -10 ∧
    ∃ r, refresh defaults windowDom (offset (some (OffsetValue.obj topTen)) d).1 = Except.ok r ∧
      r.1.element.offset = ⟨0, 0, 0, 0⟩ ∧
      r.1.element.rect = some windowDom.elementRect := by
  constructor
  · simp [offset, assignFields, topTen, JSField.number, JSField.value]
  · obtain ⟨ev, ret, h⟩ := event_num EventType.refresh defaults windowDom
      (offset (some (OffsetValue.obj topTen)) d).1 0 rfl
    refine ⟨_, h, ?_, ?_⟩
    · simp [recomputed, numberOffset]
    · simp [recomputed, elemData_zero]

/-- Claim C10, the code at a failing input: on the initial data, `offset(5)` leaves the
stored offset at zero on every side, while `offset({ left: 5, top: 5, right: 5, bottom: 5 })`
stores {left -5, top -5, right 5, bottom 5}: the first test of `offset` sends a number to the
getter branch. -/
theorem offset_number_ignored :
    (offset (some (OffsetValue.num 5)) initialData).1.element.offset = ⟨0, 0, 0, 0⟩ ∧
    (offset (some (OffsetValue.obj allFive)) initialData).1.element.offset = ⟨-5, -5, 5, 5⟩ := by
  constructor
  · simp [offset, initialData]
  · simp [offset, initialData, assignFields, allFive, JSField.number, JSField.value]

/-! ## The offset -/

/-- Claim C11 as stated fails: a field that is not a number does not always keep the
previous value. After `offset({ left: 5 })` the stored left is -5; `offset({ left: null,
right: true })` then stores left = 0 (`-null`) and right = `true`, since `isNaN(null)` and
`isNaN(true)` are false. -/
theorem offset_null_overwrites :
    (offset (some (OffsetValue.obj leftFive)) initialData).1.element.offset.left = -5 ∧
    (offset (some (OffsetValue.obj leftNullRightTrue))
      (offset (some (OffsetValue.obj leftFive)) initialData).1).1.element.offset =
        ⟨0, 0, JSStored.bool true, 0⟩ := by
  constructor
  · simp [offset, initialData, assignFields, leftFive, JSField.number, JSField.value]
  · simp [offset, initialData, assignFields, leftFive, leftNullRightTrue, JSField.number,
      JSField.value]

/-- Claim C11, amended: `offset({ top: t })` followed by `offset()` leaves the state of the
setter and returns the stored offset with `top = -t` and the other three sides unchanged; in
general the setter stores `left` and `top` as minus the numeric value of the field, `right`
and `bottom` as given, and keeps the previous value of a side whose field is `undefined` or
fails `!isNaN`; a number, `null` and a boolean pass that test (`null` counts as 0, `true` as
1, `false` as 0). -/
theorem offset_partial_update (d : Data) (t : ℚ) (o : OffsetObject) :
    (offset none (offset (some (OffsetValue.obj
        ⟨JSField.undefined, JSField.num t, JSField.undefined, JSField.undefined⟩)) d).1 =
      ((offset (some (OffsetValue.obj
        ⟨JSField.undefined, JSField.num t, JSField.undefined, JSField.undefined⟩)) d).1,
       some ⟨d.element.offset.left, -t, d.element.offset.right, d.element.offset.bottom⟩)) ∧
    (offset none (offset (some (OffsetValue.obj o)) d).1).2 =
      some
        ⟨match o.left.number with
          | some v => -v
          | none => d.element.offset.left,
         match o.top.number with
          | some v => -v
          | none => d.element.offset.top,
         match o.right.value with
          | some v => v
          | none => d.element.offset.right,
         match o.bottom.value with
          | some v => v
          | none => d.element.offset.bottom⟩ ∧
    (JSField.undefined.number = none ∧ JSField.undefined.value = none) ∧
    (JSField.notANumber.number = none ∧ JSField.notANumber.value = none) ∧
    (∀ q, (JSField.num q).number = some q ∧ (JSField.num q).value = some (JSStored.num q)) ∧
    (JSField.null.number = some 0 ∧ JSField.null.value = some JSStored.null) ∧
    (∀ b, (JSField.bool b).number = some (if b then 1 else 0) ∧
      (JSField.bool b).value = some (JSStored.bool b)) := by
  refine ⟨?_, ?_, ⟨rfl, rfl⟩, ⟨rfl, rfl⟩, fun _ => ⟨rfl, rfl⟩, ⟨rfl, rfl⟩, fun _ => ⟨rfl, rfl⟩⟩
  · simp [offset, assignFields, JSField.number, JSField.value]
  · rcases o with ⟨l, t, r, b⟩
    cases l <;> cases t <;> cases r <;> cases b <;>
      simp [offset, assignFields, JSField.number, JSField.value]

/-- Claim C12, the code at a failing input: with the offset configured as `{ top: 10 }`,
`_setElementOffset` called with no argument raises a TypeError (it reads `args.left` of the
`undefined` argument), and so do the recompute and the construction. -/
theorem setElementOffset_object_raises :
    _setElementOffset none topTenSettings initialData = Except.error JSError.typeError ∧
    _updateElementVisibility topTenSettings windowDom initialData =
      Except.error JSError.typeError ∧
    _init topTenSettings windowDom = Except.error JSError.typeError := by
  have h := updateElementVisibility_obj topTenSettings windowDom initialData topTen rfl
  refine ⟨?_, h, ?_⟩
  · simp [_setElementOffset, offsetSetting, topTenSettings]
  · simp [_init, h, bind, Except.bind]

/-- Claim C14: with the number `N` configured as the offset, `_setElementOffset` returns and
stores left = top = -N and right = bottom = N, and `_setElementData` then stores the raw
rectangle grown by `N` on every side, its width and height grown by `2 N`. -/
theorem numberOffset_grows (s : Settings) (dom : Dom) (d : Data) (N : ℚ)
    (h : s.offset = OffsetValue.num N) :
    ∃ d1, _setElementOffset none s d = Except.ok d1 ∧
      d1.element.offset = ⟨-N, -N, N, N⟩ ∧
      (_setElementData dom d1).element.rect = some
        ⟨dom.elementRect.left - N, dom.elementRect.top - N, dom.elementRect.right + N,
          dom.elementRect.bottom + N, dom.elementRect.width + 2 * N,
          dom.elementRect.height + 2 * N⟩ := by
  refine ⟨{ d with element := { d.element with offset := numberOffset N } }, ?_, rfl, ?_⟩
  · simp [_setElementOffset, offsetSetting, h]
  · simp only [_setElementData, elemData, numberOffset, JSStored.toNumber_num,
      Option.some.injEq, Rect.mk.injEq]
    refine ⟨by ring, by ring, trivial, trivial, by ring, by ring⟩

/-- Claim C14 at a concrete input: the offset configured as 20, on `windowDom`. The stored
offset is {-20, -20, 20, 20} and the rectangle {100, 100, 300, 300, 200, 200} becomes
{80, 80, 320, 320, 240, 240}. -/
theorem numberOffset_grows_witness :
    offsetTwentySettings.offset = OffsetValue.num 20 ∧
    ∃ d1, _setElementOffset none offsetTwentySettings initialData = Except.ok d1 ∧
      d1.element.offset = ⟨-20, -20, 20, 20⟩ ∧
      (_setElementData windowDom d1).element.rect = some ⟨80, 80, 320, 320, 240, 240⟩ :=
  (numberOffset_grows offsetTwentySettings windowDom initialData 20 rfl).elim fun d1 h =>
    ⟨rfl, d1, h.1, by rw [h.2.1]; simp, by rw [h.2.2]; norm_num [windowDom]⟩

/-- Claim C15: when a recompute returns, a second recompute on the same rectangles returns
the very same state (offset, effective rectangle, position, visible, percent and progress);
with a number as the configured offset the first recompute returns. -/
theorem recompute_idempotent (s : Settings) (dom : Dom) (d : Data) :
    (∀ d1, _updateElementVisibility s dom d = Except.ok d1 →
      _updateElementVisibility s dom d1 = Except.ok d1) ∧
    (∀ n, s.offset = OffsetValue.num n →
      ∃ d1, _updateElementVisibility s dom d = Except.ok d1) := by
  constructor
  · intro d1 h
    obtain ⟨n, hn, rfl⟩ := updateElementVisibility_ok s dom d d1 h
    exact updateElementVisibility_num s dom _ n hn
  · intro n hn
    exact ⟨_, updateElementVisibility_num s dom d n hn⟩

/-- Claim C15 at a concrete input: the default settings on `windowDom`, from the initial
data. -/
theorem recompute_idempotent_witness :
    _updateElementVisibility defaults windowDom initialData = Except.ok windowData ∧
    _updateElementVisibility defaults windowDom windowData = Except.ok windowData :=
  have h : _updateElementVisibility defaults windowDom initialData = Except.ok windowData :=
    updateElementVisibility_num defaults windowDom initialData 0 rfl
  ⟨h, (recompute_idempotent defaults windowDom initialData).1 windowData h⟩

/-! ## The event payload and the reads -/

/-- Whenever `_event` returns, the object it built holds the recomputed position and
visibility, holds `percent` and `progress` exactly when the matching option is set, is the
argument of every callback it invoked, and is the value returned for the type `refresh`. -/
theorem event_payload (type : EventType) (s : Settings) (dom : Dom) (d d' : Data)
    (calls : List Call) (ret : Option EventObject)
    (h : _event type s dom d = Except.ok (d', calls, ret)) :
    ∃ ev : EventObject,
      calls = dispatch s d.element.visible d'.element.visible ev ∧
      ret = (if type = EventType.refresh then some ev else none) ∧
      ev.position = d'.element.position ∧ ev.visible = d'.element.visible ∧
      ev.percent = (if s.percentVisible = true then
        some ⟨d'.element.percent.x, d'.element.percent.y⟩ else none) ∧
      ev.progress = (if s.percentProgress = true then
        some ⟨d'.element.progress.x, d'.element.progress.y⟩ else none) := by
  unfold _event at h
  cases hu : _updateElementVisibility s dom d with
  | error err => simp [hu, bind, Except.bind] at h
  | ok d1 =>
    simp only [hu, bind, Except.bind, pure, Except.pure, Except.ok.injEq, Prod.mk.injEq] at h
    obtain ⟨h1, h2, h3⟩ := h
    subst h1
    exact ⟨_, h2.symm, h3.symm, rfl, rfl, rfl, rfl⟩

/-- Every call that `dispatch` selects hands over the event object. -/
theorem dispatch_payload (s : Settings) (p v : Bool) (ev : EventObject) (c : Call)
    (hc : c ∈ dispatch s p v ev) : c.payload = ev := by
  cases p <;> cases v <;> cases he : isFunction s.onEnter <;> cases hl : isFunction s.onLeave <;>
    cases hv : isFunction s.onVisible <;>
    simp [dispatch, he, hl, hv] at hc <;>
    (try rcases hc with rfl | rfl) <;> rfl

/-- Claim C16: the object built by a tick of `_event` (handed to every callback invoked, and
returned by a refresh) holds the freshly recomputed `position` and `visible`, holds `percent`
with the recomputed x and y exactly when `percentVisible` is enabled and `progress` exactly
when `percentProgress` is enabled, and a disabled field is absent. With a number as the
configured offset the tick returns. -/
theorem event_object_fields (type : EventType) (s : Settings) (dom : Dom) (d : Data) :
    (∀ d' calls ret, _event type s dom d = Except.ok (d', calls, ret) →
      ∃ ev : EventObject,
        (∀ c ∈ calls, c.payload = ev) ∧
        (type = EventType.refresh → ret = some ev) ∧
        ev.position = d'.element.position ∧ ev.visible = d'.element.visible ∧
        (s.percentVisible = true →
          ev.percent = some ⟨d'.element.percent.x, d'.element.percent.y⟩) ∧
        (s.percentVisible = false → ev.percent = none) ∧
        (s.percentProgress = true →
          ev.progress = some ⟨d'.element.progress.x, d'.element.progress.y⟩) ∧
        (s.percentProgress = false → ev.progress = none)) ∧
    (∀ n, s.offset = OffsetValue.num n → ∃ r, _event type s dom d = Except.ok r) := by
  constructor
  · intro d' calls ret h
    obtain ⟨ev, hcalls, hret, hp, hv, hpc, hpg⟩ := event_payload type s dom d d' calls ret h
    refine ⟨ev, ?_, ?_, hp, hv, ?_, ?_, ?_, ?_⟩
    · intro c hc
      rw [hcalls] at hc
      exact dispatch_payload s _ _ ev c hc
    · intro ht
      rw [hret, if_pos ht]
    · intro hs
      rw [hpc, if_pos hs]
    · intro hs
      rw [hpc, if_neg (by simp [hs])]
    · intro hs
      rw [hpg, if_pos hs]
    · intro hs
      rw [hpg, if_neg (by simp [hs])]
  · intro n hn
    obtain ⟨ev, ret, h⟩ := event_num type s dom d n hn
    exact ⟨_, h⟩

/-- Claim C17: `offset()` leaves the state as it is and returns the stored offset, `visible()`
and `percent(axis)` are values read off the state; and when `refresh()` returns the object `p`
with `percentVisible` enabled, `visible()` on the state it leaves is `p.visible` and
`percent('x')`, `percent('y')`, `percent()` are the x, the y and both of `p.percent`. With a
number as the configured offset the refresh returns its object. -/
theorem reads_project_refresh (s : Settings) (dom : Dom) (d : Data) :
    offset none d = (d, some d.element.offset) ∧
    visible d = d.element.visible ∧
    percent Axis.x d = PercentResult.number d.element.percent.x ∧
    percent Axis.y d = PercentResult.number d.element.percent.y ∧
    percent Axis.other d = PercentResult.object ⟨d.element.percent.x, d.element.percent.y⟩ ∧
    (s.percentVisible = true → ∀ d' calls ret, refresh s dom d = Except.ok (d', calls, ret) →
      ∃ p px py, ret = some p ∧ p.percent = some ⟨px, py⟩ ∧
        visible d' = p.visible ∧
        percent Axis.x d' = PercentResult.number px ∧
        percent Axis.y d' = PercentResult.number py ∧
        percent Axis.other d' = PercentResult.object ⟨px, py⟩ ∧
        (offset none d').1 = d') ∧
    (∀ n, s.offset = OffsetValue.num n →
      ∃ d' calls p, refresh s dom d = Except.ok (d', calls, some p)) := by
  refine ⟨rfl, rfl, rfl, rfl, rfl, ?_, ?_⟩
  · intro hs d' calls ret h
    obtain ⟨ev, -, hret, -, hv, hpc, -⟩ :=
      event_payload EventType.refresh s dom d d' calls ret h
    refine ⟨ev, d'.element.percent.x, d'.element.percent.y, ?_, ?_, ?_, rfl, rfl, rfl, rfl⟩
    · rw [hret, if_pos rfl]
    · rw [hpc, if_pos hs]
    · exact hv.symm
  · intro n hn
    obtain ⟨ev, ret, h⟩ := event_num EventType.refresh s dom d n hn
    obtain ⟨ev', -, hret, -⟩ := event_payload EventType.refresh s dom d _ _ ret h
    rw [if_pos rfl] at hret
    subst hret
    exact ⟨_, _, _, h⟩

/-! ## Scenarios -/

/-- Claim C18, scenario A: with offset 0, `partiallyVisible` enabled and the window as the
container, a 1000 by 800 window and the element {100, 100, 300, 300, 200, 200} give
`visible = true`, `position.all = true` and `percent = {x: 1, y: 1}`. -/
theorem scenario_A (s : Settings) (d : Data) (hoff : s.offset = OffsetValue.num 0)
    (hpv : s.partiallyVisible = true) (hwin : s.containerIsWindow = true) :
    ∃ d', _updateElementVisibility s windowDom d = Except.ok d' ∧
      d'.container.rect = some ⟨0, 0, 1000, 800, 1000, 800⟩ ∧
      d'.element.rect = some ⟨100, 100, 300, 300, 200, 200⟩ ∧
      d'.element.visible = true ∧ d'.element.position.all = true ∧
      d'.element.percent = ⟨JSNum.fin 1, JSNum.fin 1⟩ := by
  refine ⟨_, updateElementVisibility_num s windowDom d 0 hoff, ?_, ?_, ?_, ?_, ?_⟩
  · simp [recomputed, contData, hwin, windowDom]
  · norm_num [recomputed, elemData, numberOffset, windowDom]
  · norm_num [recomputed, contData, hwin, elemData, numberOffset, elementPosition,
      elementVisibility, hpv, windowDom, abs_lt]
  · norm_num [recomputed, contData, hwin, elemData, numberOffset, elementPosition,
      windowDom, abs_lt]
  · norm_num [recomputed, contData, hwin, elemData, numberOffset, elementPosition,
      percentX, percentY, windowDom, abs_lt]

/-- Claim C18 at a concrete input: the default settings, from the initial data. -/
theorem scenario_A_witness :
    (defaults.offset = OffsetValue.num 0 ∧ defaults.partiallyVisible = true ∧
      defaults.containerIsWindow = true) ∧
    ∃ d', _updateElementVisibility defaults windowDom initialData = Except.ok d' ∧
      d'.container.rect = some ⟨0, 0, 1000, 800, 1000, 800⟩ ∧
      d'.element.rect = some ⟨100, 100, 300, 300, 200, 200⟩ ∧
      d'.element.visible = true ∧ d'.element.position.all = true ∧
      d'.element.percent = ⟨JSNum.fin 1, JSNum.fin 1⟩ :=
  ⟨⟨rfl, rfl, rfl⟩, scenario_A defaults initialData rfl rfl rfl⟩

/-- Claim C19 as stated fails: on scenario B with the default settings the recompute returns
`visible = true`, not false, and a percent other than `{x: 0, y: 0}`. -/
theorem scenario_B_visible :
    ∃ d', _updateElementVisibility defaults scenarioB initialData = Except.ok d' ∧
      d'.element.visible ≠ false ∧
      d'.element.percent ≠ ⟨JSNum.fin 0, JSNum.fin 0⟩ := by
  refine ⟨_, updateElementVisibility_num defaults scenarioB initialData 0 rfl, ?_, ?_⟩
  · norm_num [recomputed, contData, elemData, numberOffset, elementPosition,
      elementVisibility, defaults, scenarioB, abs_lt]
  · norm_num [recomputed, contData, elemData, numberOffset, elementPosition,
      percentX, percentY, jsDiv, defaults, scenarioB, abs_lt]

/-- Claim C19, amended: with offset 0, `partiallyVisible` enabled and the window as the
container, scenario B (1000 by 800 window, element left 900, top 0, right 1100, bottom 200,
width 200, height 200) gives `visible = true` and `percent = {x: 1/2, y: 1}`: the left, top
and bottom edges are in view, the right edge is not. -/
theorem scenario_B (s : Settings) (d : Data) (hoff : s.offset = OffsetValue.num 0)
    (hpv : s.partiallyVisible = true) (hwin : s.containerIsWindow = true) :
    ∃ d', _updateElementVisibility s scenarioB d = Except.ok d' ∧
      d'.container.rect = some ⟨0, 0, 1000, 800, 1000, 800⟩ ∧
      d'.element.rect = some ⟨900, 0, 1100, 200, 200, 200⟩ ∧
      d'.element.position = ⟨true, true, true, false, false⟩ ∧
      d'.element.visible = true ∧
      d'.element.percent = ⟨JSNum.fin (1 / 2), JSNum.fin 1⟩ := by
  refine ⟨_, updateElementVisibility_num s scenarioB d 0 hoff, ?_, ?_, ?_, ?_, ?_⟩
  · simp [recomputed, contData, hwin, scenarioB]
  · norm_num [recomputed, elemData, numberOffset, scenarioB]
  · norm_num [recomputed, contData, hwin, elemData, numberOffset, elementPosition,
      scenarioB, abs_lt]
  · norm_num [recomputed, contData, hwin, elemData, numberOffset, elementPosition,
      elementVisibility, hpv, scenarioB, abs_lt]
  · norm_num [recomputed, contData, hwin, elemData, numberOffset, elementPosition,
      percentX, percentY, jsDiv, scenarioB, abs_lt]

/-- Claim C19, amended, at a concrete input: the default settings, from the initial data. -/
theorem scenario_B_witness :
    (defaults.offset = OffsetValue.num 0 ∧ defaults.partiallyVisible = true ∧
      defaults.containerIsWindow = true) ∧
    ∃ d', _updateElementVisibility defaults scenarioB initialData = Except.ok d' ∧
      d'.container.rect = some ⟨0, 0, 1000, 800, 1000, 800⟩ ∧
      d'.element.rect = some ⟨900, 0, 1100, 200, 200, 200⟩ ∧
      d'.element.position = ⟨true, true, true, false, false⟩ ∧
      d'.element.visible = true ∧
      d'.element.percent = ⟨JSNum.fin (1 / 2), JSNum.fin 1⟩ :=
  ⟨⟨rfl, rfl, rfl⟩, scenario_B defaults initialData rfl rfl rfl⟩

/-- Claim C20 as stated fails: with `ignoreOverflow` enabled, a box container with left -500
and width 1000, and an element with left -100 < 0 and right 1200 ≥ 1000 (top -100 < 0 and
bottom 900 ≥ 800), the left edge of the element is in view and `percent.x` is 6/13, not 1. -/
theorem straddle_box_percent :
    ∃ d', _updateElementVisibility overflowBoxSettings shiftedBoxDom initialData =
        Except.ok d' ∧
      d'.element.position.left = true ∧
      d'.element.percent.x = JSNum.fin (6 / 13) ∧ d'.element.percent.x ≠ JSNum.fin 1 := by
  refine ⟨_, updateElementVisibility_num overflowBoxSettings shiftedBoxDom initialData 0 rfl,
    ?_, ?_, ?_⟩
  · norm_num [recomputed, contData, elemData, numberOffset, elementPosition,
      overflowBoxSettings, defaults, shiftedBoxDom, abs_lt]
  · norm_num [recomputed, contData, elemData, numberOffset, elementPosition, percentX, jsDiv,
      overflowBoxSettings, defaults, shiftedBoxDom, abs_lt]
  · norm_num [recomputed, contData, elemData, numberOffset, elementPosition, percentX, jsDiv,
      overflowBoxSettings, defaults, shiftedBoxDom, abs_lt]

/-- Claim C20, amended: with the window as the container and a number as the configured
offset, when the effective element rectangle has left < 0, right ≥ window width, top < 0 and
bottom ≥ window height, the recompute returns with `percent.x = 1` and `percent.y = 1` if
`ignoreOverflow` is enabled, and with `percent.x = width of the window / width of the element`
and `percent.y = height of the window / height of the element` (JavaScript divisions) if it
is not. -/
theorem straddle_window_percent (s : Settings) (dom : Dom) (d : Data) (n : ℚ)
    (hoff : s.offset = OffsetValue.num n) (hwin : s.containerIsWindow = true)
    (hl : (elemData dom.elementRect (numberOffset n)).left < 0)
    (hr : (elemData dom.elementRect (numberOffset n)).right ≥ dom.windowWidth)
    (ht : (elemData dom.elementRect (numberOffset n)).top < 0)
    (hb : (elemData dom.elementRect (numberOffset n)).bottom ≥ dom.windowHeight) :
    ∃ d', _updateElementVisibility s dom d = Except.ok d' ∧
      d'.container.rect = some ⟨0, 0, dom.windowWidth, dom.windowHeight, dom.windowWidth,
        dom.windowHeight⟩ ∧
      d'.element.rect = some (elemData dom.elementRect (numberOffset n)) ∧
      (s.ignoreOverflow = true →
        d'.element.percent.x = JSNum.fin 1 ∧ d'.element.percent.y = JSNum.fin 1) ∧
      (s.ignoreOverflow = false →
        d'.element.percent.x =
          jsDiv dom.windowWidth (elemData dom.elementRect (numberOffset n)).width ∧
        d'.element.percent.y =
          jsDiv dom.windowHeight (elemData dom.elementRect (numberOffset n)).height) := by
  have hL : (elementPosition ⟨0, 0, dom.windowWidth, dom.windowHeight, dom.windowWidth,
      dom.windowHeight⟩ (elemData dom.elementRect (numberOffset n))).left = false := by
    rw [Bool.eq_false_iff, Ne, position_left_iff _ _ (by simp)]
    rintro ⟨h1, -⟩
    simp only at h1
    linarith
  have hR : (elementPosition ⟨0, 0, dom.windowWidth, dom.windowHeight, dom.windowWidth,
      dom.windowHeight⟩ (elemData dom.elementRect (numberOffset n))).right = false := by
    rw [Bool.eq_false_iff, Ne, position_right_iff _ _ (by simp)]
    rintro ⟨-, h1⟩
    simp only at h1
    linarith
  have hT : (elementPosition ⟨0, 0, dom.windowWidth, dom.windowHeight, dom.windowWidth,
      dom.windowHeight⟩ (elemData dom.elementRect (numberOffset n))).top = false := by
    rw [Bool.eq_false_iff, Ne, position_top_iff _ _ (by simp)]
    rintro ⟨h1, -⟩
    simp only at h1
    linarith
  have hB : (elementPosition ⟨0, 0, dom.windowWidth, dom.windowHeight, dom.windowWidth,
      dom.windowHeight⟩ (elemData dom.elementRect (numberOffset n))).bottom = false := by
    rw [Bool.eq_false_iff, Ne, position_bottom_iff _ _ (by simp)]
    rintro ⟨-, h1⟩
    simp only at h1
    linarith
  refine ⟨_, updateElementVisibility_num s dom d n hoff, ?_, ?_, ?_, ?_⟩
  · simp [recomputed, contData_window s dom hwin]
  · simp [recomputed]
  · intro hio
    simp only [recomputed, contData_window s dom hwin]
    constructor
    · simp [percentX, hL, hR, hl, hr, hio]
    · simp [percentY, hT, hB, ht, hb, hio]
  · intro hio
    simp only [recomputed, contData_window s dom hwin]
    constructor
    · simp [percentX, hL, hR, hl, hr, hio]
    · simp [percentY, hT, hB, ht, hb, hio]

/-- Claim C20, amended, at a concrete input: `ignoreOverflow` enabled, a 1000 by 800 window
and an element that covers it and more on every side. -/
theorem straddle_window_percent_witness :
    (overflowSettings.offset = OffsetValue.num 0 ∧ overflowSettings.containerIsWindow = true ∧
      (elemData coverDom.elementRect (numberOffset 0)).left < 0 ∧
      (elemData coverDom.elementRect (numberOffset 0)).right ≥ coverDom.windowWidth ∧
      (elemData coverDom.elementRect (numberOffset 0)).top < 0 ∧
      (elemData coverDom.elementRect (numberOffset 0)).bottom ≥ coverDom.windowHeight) ∧
    ∃ d', _updateElementVisibility overflowSettings coverDom initialData = Except.ok d' ∧
      d'.container.rect = some ⟨0, 0, coverDom.windowWidth, coverDom.windowHeight,
        coverDom.windowWidth, coverDom.windowHeight⟩ ∧
      d'.element.rect = some (elemData coverDom.elementRect (numberOffset 0)) ∧
      (overflowSettings.ignoreOverflow = true →
        d'.element.percent.x = JSNum.fin 1 ∧ d'.element.percent.y = JSNum.fin 1) ∧
      (overflowSettings.ignoreOverflow = false →
        d'.element.percent.x =
          jsDiv coverDom.windowWidth (elemData coverDom.elementRect (numberOffset 0)).width ∧
        d'.element.percent.y =
          jsDiv coverDom.windowHeight (elemData coverDom.elementRect (numberOffset 0)).height) :=
  have hl : (elemData coverDom.elementRect (numberOffset 0)).left < 0 := by
    norm_num [elemData, numberOffset, coverDom]
  have hr : (elemData coverDom.elementRect (numberOffset 0)).right ≥ coverDom.windowWidth := by
    norm_num [elemData, numberOffset, coverDom]
  have ht : (elemData coverDom.elementRect (numberOffset 0)).top < 0 := by
    norm_num [elemData, numberOffset, coverDom]
  have hb : (elemData coverDom.elementRect (numberOffset 0)).bottom ≥ coverDom.windowHeight := by
    norm_num [elemData, numberOffset, coverDom]
  ⟨⟨rfl, rfl, hl, hr, ht, hb⟩,
    straddle_window_percent overflowSettings coverDom initialData 0 rfl rfl hl hr ht hb⟩

/-! ## Zero extents -/

/-- On a finite number `_normalizePercent` is the clamp to the interval from 0 to 1. -/
theorem normalizePercent_fin (q : ℚ) :
    _normalizePercent (JSNum.fin q) = JSNum.fin (max 0 (min 1 q)) := by
  simp only [_normalizePercent, JSNum.gt, JSNum.lt]
  split_ifs with h1 h2
  · simp only [decide_eq_true_eq] at h1
    rw [min_eq_left (le_of_lt h1)]
    simp
  · simp only [decide_eq_true_eq, not_lt] at h1 h2
    rw [min_eq_right h1, max_eq_left (le_of_lt h2)]
  · simp only [decide_eq_true_eq, not_lt] at h1 h2
    rw [min_eq_right h1, max_eq_right h2]

/-- Claim C13, the code at failing inputs. For the all-zero rectangle of an element that is
not rendered, in a 1000 by 800 window with the default settings, the recompute returns with
the element visible and `percent.x = 1000 / 0`, `percent.y = 800 / 0`, both `Infinity`; in a
window of zero width and height the same rectangle gets `progress.x = progress.y = 0 / 0`,
that is `NaN`. Nothing guards a zero extent. -/
theorem zero_rect_divides_by_zero :
    (∃ d', _updateElementVisibility defaults hiddenDom initialData = Except.ok d' ∧
      d'.element.rect = some ⟨0, 0, 0, 0, 0, 0⟩ ∧
      d'.element.visible = true ∧
      d'.element.percent = ⟨JSNum.posInf, JSNum.posInf⟩ ∧
      ¬ d'.element.percent.x.inUnit ∧ ¬ d'.element.percent.y.inUnit) ∧
    (∃ d', _updateElementVisibility defaults emptyDom initialData = Except.ok d' ∧
      d'.element.progress = ⟨JSNum.nan, JSNum.nan⟩) := by
  constructor
  · refine ⟨_, updateElementVisibility_num defaults hiddenDom initialData 0 rfl,
      ?_, ?_, ?_, ?_, ?_⟩
    · norm_num [recomputed, elemData, numberOffset, hiddenDom]
    · norm_num [recomputed, contData, elemData, numberOffset, elementPosition,
        elementVisibility, defaults, hiddenDom, abs_lt]
    · norm_num [recomputed, contData, elemData, numberOffset, elementPosition, percentX,
        percentY, jsDiv, defaults, hiddenDom, abs_lt]
    · norm_num [recomputed, contData, elemData, numberOffset, elementPosition, percentX,
        jsDiv, defaults, hiddenDom, abs_lt, JSNum.inUnit]
    · norm_num [recomputed, contData, elemData, numberOffset, elementPosition, percentY,
        jsDiv, defaults, hiddenDom, abs_lt, JSNum.inUnit]
  · refine ⟨_, updateElementVisibility_num defaults emptyDom initialData 0 rfl, ?_⟩
    norm_num [recomputed, contData, elemData, numberOffset, progressX, progressY, jsDiv,
      _normalizePercent, JSNum.gt, JSNum.lt, defaults, emptyDom]

/-! ## Edges, axes and travel -/

/-- Claim C22: with `partiallyVisible` enabled, `_setElementPosition` followed by
`_setElementVisibility` on a state that holds both rectangles returns, and the `visible` it
stores equals the conjunction of the two per-axis tests, and equals the four branches taken
without the test `!position.all`. -/
theorem visibility_axis_independent (s : Settings) (d : Data) (c e : Rect)
    (hc : d.container.rect = some c) (he : d.element.rect = some e)
    (hpv : s.partiallyVisible = true) :
    ∃ d1 d2, _setElementPosition d = Except.ok d1 ∧
      _setElementVisibility s d1 = Except.ok d2 ∧
      d2.element.position = d1.element.position ∧
      d2.element.visible = axisVisibility c e d1.element.position ∧
      d2.element.visible = branchesWithoutGuard c e d1.element.position := by
  refine ⟨{ d with element := { d.element with position := elementPosition c e } },
    { d with element :=
        { rect := d.element.rect
          position := elementPosition c e
          visible := elementVisibility s c e (elementPosition c e)
          percent := d.element.percent
          offset := d.element.offset
          progress := d.element.progress } }, ?_, ?_, rfl, ?_, ?_⟩
  · simp only [_setElementPosition, hc, he]
  · exact setElementVisibility_some s
      { d with element := { d.element with position := elementPosition c e } } c e hc he
  · simp only
    rcases hp : elementPosition c e with ⟨t, b, l, r, a⟩
    have ha := position_all_eq c e
    rw [hp] at ha
    simp only at ha
    subst ha
    simp only [elementVisibility, axisVisibility, hpv, if_true]
    generalize decide (e.left < 0) = x1
    generalize decide (e.right ≥ c.width) = x2
    generalize decide (e.top < 0) = y1
    generalize decide (e.bottom ≥ c.height) = y2
    cases t <;> cases b <;> cases l <;> cases r <;> cases x1 <;> cases x2 <;> cases y1 <;>
      cases y2 <;> rfl
  · simp only
    rcases hp : elementPosition c e with ⟨t, b, l, r, a⟩
    have ha := position_all_eq c e
    rw [hp] at ha
    simp only at ha
    subst ha
    simp only [elementVisibility, branchesWithoutGuard, hpv, if_true]
    generalize decide (e.left < 0) = x1
    generalize decide (e.right ≥ c.width) = x2
    generalize decide (e.top < 0) = y1
    generalize decide (e.bottom ≥ c.height) = y2
    cases t <;> cases b <;> cases l <;> cases r <;> cases x1 <;> cases x2 <;> cases y1 <;>
      cases y2 <;> rfl

/-- The clamp to the interval from 0 to 1 is 0 exactly at the numbers that are at most 0. -/
theorem clamp_eq_zero_iff (q : ℚ) : max 0 (min 1 q) = 0 ↔ q ≤ 0 := by
  constructor
  · intro h
    have h1 : min 1 q ≤ 0 := by
      have := le_max_right 0 (min 1 q)
      rw [h] at this
      exact this
    rcases min_le_iff.mp h1 with h2 | h2
    · linarith
    · exact h2
  · intro h
    exact max_eq_left (le_trans (min_le_right 1 q) h)

/-- The clamp to the interval from 0 to 1 is 1 exactly at the numbers that are at least 1. -/
theorem clamp_eq_one_iff (q : ℚ) : max 0 (min 1 q) = 1 ↔ 1 ≤ q := by
  constructor
  · intro h
    by_contra hq
    have hq : q < 1 := not_le.mp hq
    have h1 : max 0 (min 1 q) < 1 := max_lt (by norm_num) (lt_of_le_of_lt (min_le_right 1 q) hq)
    linarith
  · intro h
    rw [min_eq_left h]
    exact max_eq_right (by norm_num)

/-- The clamp to the interval from 0 to 1 is strictly inside it exactly at the numbers that
are. -/
theorem clamp_strict_iff (q : ℚ) :
    (0 < max 0 (min 1 q) ∧ max 0 (min 1 q) < 1) ↔ (0 < q ∧ q < 1) := by
  constructor
  · rintro ⟨h1, h2⟩
    constructor
    · by_contra hq
      have := (clamp_eq_zero_iff q).mpr (not_lt.mp hq)
      linarith
    · by_contra hq
      have := (clamp_eq_one_iff q).mpr (not_lt.mp hq)
      linarith
  · rintro ⟨h1, h2⟩
    rw [min_eq_right (le_of_lt h2), max_eq_right (le_of_lt h1)]
    exact ⟨h1, h2⟩

/-- The clamp to the interval from 0 to 1 is monotone. -/
theorem clamp_mono (p q : ℚ) (h : p ≤ q) : max 0 (min 1 p) ≤ max 0 (min 1 q) :=
  max_le_max le_rfl (min_le_min le_rfl h)

/-- With a divisor other than zero `_getProgressX` computes the clamp of the quotient. -/
theorem progressX_eq (e c : Rect) (h : c.width + e.width ≠ 0) :
    progressX e c = JSNum.fin (max 0 (min 1 ((e.right - c.left) / (c.width + e.width)))) := by
  simp [progressX, jsDiv, h, normalizePercent_fin]

/-- With a divisor other than zero `_getProgressY` computes the clamp of the quotient. -/
theorem progressY_eq (e c : Rect) (h : c.height + e.height ≠ 0) :
    progressY e c = JSNum.fin (max 0 (min 1 ((e.bottom - c.top) / (c.height + e.height)))) := by
  simp [progressY, jsDiv, h, normalizePercent_fin]

/-- Claim C23: for a container and an element with right = left + width, bottom = top +
height and positive extents, `_getProgressX` and `_getProgressY` return the clamp to the
interval from 0 to 1 of (far edge of the element - near edge of the container) / (container
extent + element extent); the value is 0 exactly when the far edge of the element is at or
before the near edge of the container, 1 exactly when the near edge of the element is at or
past the far edge of the container, and it does not decrease when the element is moved
forward along the axis. -/
theorem progress_travel (d : Data) (c e : Rect) (hc : d.container.rect = some c)
    (he : d.element.rect = some e)
    (hcr : c.right = c.left + c.width) (hcb : c.bottom = c.top + c.height)
    (hcw : 0 < c.width) (hch : 0 < c.height)
    (her : e.right = e.left + e.width) (heb : e.bottom = e.top + e.height)
    (hew : 0 < e.width) (heh : 0 < e.height) :
    _getProgressX d = Except.ok
      (JSNum.fin (max 0 (min 1 ((e.right - c.left) / (c.width + e.width))))) ∧
    _getProgressY d = Except.ok
      (JSNum.fin (max 0 (min 1 ((e.bottom - c.top) / (c.height + e.height))))) ∧
    (max 0 (min 1 ((e.right - c.left) / (c.width + e.width))) = 0 ↔ e.right ≤ c.left) ∧
    (max 0 (min 1 ((e.right - c.left) / (c.width + e.width))) = 1 ↔ c.right ≤ e.left) ∧
    (max 0 (min 1 ((e.bottom - c.top) / (c.height + e.height))) = 0 ↔ e.bottom ≤ c.top) ∧
    (max 0 (min 1 ((e.bottom - c.top) / (c.height + e.height))) = 1 ↔ c.bottom ≤ e.top) ∧
    (∀ t1 t2 : ℚ, t1 ≤ t2 → ∃ q1 q2,
      progressX (e.translate t1 0) c = JSNum.fin q1 ∧
      progressX (e.translate t2 0) c = JSNum.fin q2 ∧ q1 ≤ q2) ∧
    (∀ t1 t2 : ℚ, t1 ≤ t2 → ∃ q1 q2,
      progressY (e.translate 0 t1) c = JSNum.fin q1 ∧
      progressY (e.translate 0 t2) c = JSNum.fin q2 ∧ q1 ≤ q2) := by
  have hx : 0 < c.width + e.width := by linarith
  have hy : 0 < c.height + e.height := by linarith
  refine ⟨?_, ?_, ?_, ?_, ?_, ?_, ?_, ?_⟩
  · simp only [_getProgressX, hc, he, progressX_eq e c (ne_of_gt hx)]
  · simp only [_getProgressY, hc, he, progressY_eq e c (ne_of_gt hy)]
  · rw [clamp_eq_zero_iff, div_le_iff₀ hx]
    constructor <;> intro h <;> linarith
  · rw [clamp_eq_one_iff, le_div_iff₀ hx]
    constructor <;> intro h <;> linarith
  · rw [clamp_eq_zero_iff, div_le_iff₀ hy]
    constructor <;> intro h <;> linarith
  · rw [clamp_eq_one_iff, le_div_iff₀ hy]
    constructor <;> intro h <;> linarith
  · intro t1 t2 ht
    refine ⟨_, _, progressX_eq (e.translate t1 0) c (ne_of_gt hx),
      progressX_eq (e.translate t2 0) c (ne_of_gt hx), ?_⟩
    apply clamp_mono
    simp only [Rect.translate]
    apply div_le_div_of_nonneg_right _ (le_of_lt hx)
    linarith
  · intro t1 t2 ht
    refine ⟨_, _, progressY_eq (e.translate 0 t1) c (ne_of_gt hy),
      progressY_eq (e.translate 0 t2) c (ne_of_gt hy), ?_⟩
    apply clamp_mono
    simp only [Rect.translate]
    apply div_le_div_of_nonneg_right _ (le_of_lt hy)
    linarith

/-- Claim C22 at a concrete input: the default settings and the state of `windowData`. -/
theorem visibility_axis_independent_witness :
    (windowData.container.rect = some ⟨0, 0, 1000, 800, 1000, 800⟩ ∧
      windowData.element.rect = some ⟨100, 100, 300, 300, 200, 200⟩ ∧
      defaults.partiallyVisible = true) ∧
    ∃ d1 d2, _setElementPosition windowData = Except.ok d1 ∧
      _setElementVisibility defaults d1 = Except.ok d2 ∧
      d2.element.position = d1.element.position ∧
      d2.element.visible = axisVisibility ⟨0, 0, 1000, 800, 1000, 800⟩
        ⟨100, 100, 300, 300, 200, 200⟩ d1.element.position ∧
      d2.element.visible = branchesWithoutGuard ⟨0, 0, 1000, 800, 1000, 800⟩
        ⟨100, 100, 300, 300, 200, 200⟩ d1.element.position :=
  have hc : windowData.container.rect = some ⟨0, 0, 1000, 800, 1000, 800⟩ := by
    simp [windowData, recomputed, contData, defaults, windowDom]
  have he : windowData.element.rect = some ⟨100, 100, 300, 300, 200, 200⟩ := by
    norm_num [windowData, recomputed, elemData, numberOffset, windowDom]
  ⟨⟨hc, he, rfl⟩, visibility_axis_independent defaults windowData _ _ hc he rfl⟩

/-- Claim C23 at a concrete input: the state of `windowData`. -/
theorem progress_travel_witness :
    (windowData.container.rect = some ⟨0, 0, 1000, 800, 1000, 800⟩ ∧
      windowData.element.rect = some ⟨100, 100, 300, 300, 200, 200⟩) ∧
    _getProgressX windowData = Except.ok
      (JSNum.fin (max 0 (min 1 (((300 : ℚ) - 0) / (1000 + 200))))) ∧
    _getProgressY windowData = Except.ok
      (JSNum.fin (max 0 (min 1 (((300 : ℚ) - 0) / (800 + 200))))) :=
  have hc : windowData.container.rect = some ⟨0, 0, 1000, 800, 1000, 800⟩ := by
    simp [windowData, recomputed, contData, defaults, windowDom]
  have he : windowData.element.rect = some ⟨100, 100, 300, 300, 200, 200⟩ := by
    norm_num [windowData, recomputed, elemData, numberOffset, windowDom]
  have h := progress_travel windowData ⟨0, 0, 1000, 800, 1000, 800⟩
    ⟨100, 100, 300, 300, 200, 200⟩ hc he (by norm_num) (by norm_num) (by norm_num)
    (by norm_num) (by norm_num) (by norm_num) (by norm_num) (by norm_num)
  ⟨⟨hc, he⟩, h.1, h.2.1⟩

/-! ## Translation and consistency -/

/-- The edge flags do not change when both rectangles are moved by the same vector. -/
theorem elementPosition_translate (c e : Rect) (dx dy : ℚ) :
    elementPosition (c.translate dx dy) (e.translate dx dy) = elementPosition c e := by
  simp [elementPosition, Rect.translate]

/-- The progress does not change when both rectangles are moved by the same vector. -/
theorem progress_translate (c e : Rect) (dx dy : ℚ) :
    progressX (e.translate dx dy) (c.translate dx dy) = progressX e c ∧
    progressY (e.translate dx dy) (c.translate dx dy) = progressY e c := by
  simp [progressX, progressY, Rect.translate]

/-- Claim C24, the code at a failing input: default settings with a box as the container.
For the box {left 0, top 100, right 100, bottom 200} and the element {left 0, top 150,
right 100, bottom 250} the recompute gives `percent.y = -1/2`; for the same two rectangles
moved up by 100 it gives the same position and `percent.y = 1/2`. -/
theorem percentY_not_translation_invariant :
    ∃ d1 d2, _updateElementVisibility boxSettings boxDom initialData = Except.ok d1 ∧
      _updateElementVisibility boxSettings movedBoxDom initialData = Except.ok d2 ∧
      d1.element.position = d2.element.position ∧
      d1.element.percent.y = JSNum.fin (-1 / 2) ∧
      d2.element.percent.y = JSNum.fin (1 / 2) ∧
      d1.element.percent.y ≠ d2.element.percent.y := by
  refine ⟨_, _, updateElementVisibility_num boxSettings boxDom initialData 0 rfl,
    updateElementVisibility_num boxSettings movedBoxDom initialData 0 rfl, ?_, ?_, ?_, ?_⟩
  · norm_num [recomputed, contData, elemData, numberOffset, elementPosition, boxDom,
      movedBoxDom, Rect.translate, boxSettings, defaults, abs_lt]
  · norm_num [recomputed, contData, elemData, numberOffset, elementPosition, percentY, jsDiv,
      boxDom, boxSettings, defaults, abs_lt]
  · norm_num [recomputed, contData, elemData, numberOffset, elementPosition, percentY, jsDiv,
      boxDom, movedBoxDom, Rect.translate, boxSettings, defaults, abs_lt]
  · norm_num [recomputed, contData, elemData, numberOffset, elementPosition, percentY, jsDiv,
      boxDom, movedBoxDom, Rect.translate, boxSettings, defaults, abs_lt]

/-- The width formula of `_setElementData` adds `offset.bottom` where the right side moves by
`offset.right`: on a state whose stored offset is the one `offset({ right: 10 })` leaves, the
method run on its own would store left 100, right 310 and width 200. No recompute reaches
this state: `_setElementOffset` runs first and stores equal right and bottom. -/
theorem setElementData_width_inconsistent :
    (offset (some (OffsetValue.obj rightTen)) windowData).1.element.offset = ⟨0, 0, 10, 0⟩ ∧
    (_setElementData windowDom
        (offset (some (OffsetValue.obj rightTen)) windowData).1).element.rect =
      some ⟨100, 100, 310, 300, 200, 200⟩ ∧
    (200 : ℚ) ≠ 310 - 100 ∧ (200 : ℚ) = 300 - 100 := by
  refine ⟨?_, ?_, by norm_num, by norm_num⟩
  · norm_num [offset, assignFields, rightTen, JSField.number, JSField.value, windowData,
      recomputed, numberOffset]
    exact ⟨rfl, rfl⟩
  · norm_num [_setElementData, elemData, offset, assignFields, rightTen, JSField.number,
      JSField.value, windowData, recomputed, numberOffset, windowDom]

/-- Claim C25: whatever the state before it (so whatever offset is stored), a recompute that
returns on a raw element rectangle with width = right - left and height = bottom - top leaves
an effective rectangle with width = right - left and height = bottom - top, and it returns
when the configured offset is a number; `_setElementData` on its own keeps the rectangle
consistent for every stored offset whose right and bottom are the same number, which is what
`_setElementOffset` stores before each call. -/
theorem recompute_rect_consistent (s : Settings) (dom : Dom) (d : Data) :
    (∀ d', _updateElementVisibility s dom d = Except.ok d' →
      dom.elementRect.width = dom.elementRect.right - dom.elementRect.left →
      dom.elementRect.height = dom.elementRect.bottom - dom.elementRect.top →
      ∃ e, d'.element.rect = some e ∧ e.width = e.right - e.left ∧
        e.height = e.bottom - e.top) ∧
    (∀ n, s.offset = OffsetValue.num n →
      ∃ d', _updateElementVisibility s dom d = Except.ok d') ∧
    (d.element.offset.right.toNumber = d.element.offset.bottom.toNumber →
      dom.elementRect.width = dom.elementRect.right - dom.elementRect.left →
      dom.elementRect.height = dom.elementRect.bottom - dom.elementRect.top →
      ∃ e, (_setElementData dom d).element.rect = some e ∧ e.width = e.right - e.left ∧
        e.height = e.bottom - e.top) := by
  refine ⟨?_, ?_, ?_⟩
  · intro d' h hw hh
    obtain ⟨n, -, rfl⟩ := updateElementVisibility_ok s dom d d' h
    refine ⟨_, rfl, ?_, ?_⟩
    · simp only [elemData, numberOffset, JSStored.toNumber_num, hw]
      ring
    · simp only [elemData, numberOffset, JSStored.toNumber_num, hh]
      ring
  · intro n hn
    exact ⟨_, updateElementVisibility_num s dom d n hn⟩
  · intro hrb hw hh
    refine ⟨_, rfl, ?_, ?_⟩
    · simp only [elemData, hw, hrb]
      ring
    · simp only [elemData, hh]
      ring

/-- Claim C25 at a concrete input: the offset configured as 20, on `windowDom`, from the
state that `offset({ right: 10 })` leaves: the effective rectangle is
{80, 80, 320, 320, 240, 240}. -/
theorem recompute_rect_consistent_witness :
    ∃ d', _updateElementVisibility offsetTwentySettings windowDom
        (offset (some (OffsetValue.obj rightTen)) windowData).1 = Except.ok d' ∧
      d'.element.rect = some ⟨80, 80, 320, 320, 240, 240⟩ ∧
      ∃ e, d'.element.rect = some e ∧ e.width = e.right - e.left ∧
        e.height = e.bottom - e.top :=
  have h := recompute_rect_consistent offsetTwentySettings windowDom
    (offset (some (OffsetValue.obj rightTen)) windowData).1
  (h.2.1 20 rfl).elim fun d' hd =>
    ⟨d', hd, by
      obtain ⟨n, hn, rfl⟩ := updateElementVisibility_ok _ _ _ _ hd
      have h20 : n = 20 := by
        have := hn
        simp only [offsetTwentySettings, OffsetValue.num.injEq] at this
        exact this.symm
      subst h20
      norm_num [recomputed, elemData, numberOffset, windowDom],
      h.1 d' hd (by norm_num [windowDom]) (by norm_num [windowDom])⟩

/-! ## Construction -/

/-- When the visibility did not change, `dispatch` selects neither `onEnter` nor `onLeave`. -/
theorem dispatch_unchanged (s : Settings) (v : Bool) (ev : EventObject) :
    invocations Call.isEnter (dispatch s v v ev) = 0 ∧
    invocations Call.isLeave (dispatch s v v ev) = 0 := by
  cases v <;> cases hv : isFunction s.onVisible <;>
    simp [dispatch, invocations, hv, Call.isEnter, Call.isLeave]

/-- Whenever `_init` returns, the state it leaves is the one of its first recompute, which is
also the one the initial event recomputes, and its calls are those `dispatch` selects for an
unchanged visibility. -/
theorem init_ok (s : Settings) (dom : Dom) (d : Data) (calls : List Call)
    (h : _init s dom = Except.ok (d, calls)) :
    _updateElementVisibility s dom initialData = Except.ok d ∧
    _updateElementVisibility s dom d = Except.ok d ∧
    ∃ ev, calls = dispatch s d.element.visible d.element.visible ev := by
  unfold _init at h
  cases hu : _updateElementVisibility s dom initialData with
  | error err => simp [hu, bind, Except.bind] at h
  | ok d1 =>
    obtain ⟨n, hn, hd1⟩ := updateElementVisibility_ok s dom initialData d1 hu
    obtain ⟨ev, ret, he⟩ := event_num EventType.none s dom d1 n hn
    simp only [hu, he, bind, Except.bind, pure, Except.pure, Except.ok.injEq,
      Prod.mk.injEq] at h
    obtain ⟨h1, h2⟩ := h
    subst hd1
    subst h1
    refine ⟨rfl, updateElementVisibility_num s dom _ n hn, ev, h2.symm⟩

/-- With a number configured as the offset, `_init` returns. -/
theorem init_num (s : Settings) (dom : Dom) (n : ℚ) (hn : s.offset = OffsetValue.num n) :
    ∃ r, _init s dom = Except.ok r := by
  obtain ⟨ev, ret, he⟩ := event_num EventType.none s dom
    (recomputed s dom (numberOffset n)) n hn
  simp [_init, updateElementVisibility_num s dom initialData n hn, he, bind, Except.bind,
    pure, Except.pure]

/-- Claim C26 as stated fails: with `onVisible` set to a value that is not a function the
construction on `windowDom` returns with the element visible and `onVisible` invoked zero
times. -/
theorem init_onVisible_other :
    ∃ d calls, _init mutedSettings windowDom = Except.ok (d, calls) ∧
      d.element.visible = true ∧ invocations Call.isVisible calls = 0 := by
  obtain ⟨⟨d, calls⟩, h⟩ := init_num mutedSettings windowDom 0 rfl
  obtain ⟨h1, -, ev, hcalls⟩ := init_ok mutedSettings windowDom d calls h
  refine ⟨d, calls, h, ?_, ?_⟩
  · rw [updateElementVisibility_num mutedSettings windowDom initialData 0 rfl] at h1
    rw [← Except.ok.inj h1]
    norm_num [recomputed, contData, elemData, numberOffset, elementPosition,
      elementVisibility, windowDom, mutedSettings, defaults, abs_lt]
  · rw [hcalls, dispatch_visible]
    simp [mutedSettings, isFunction]

/-- Claim C26, amended: whenever `_init` returns, the state is the one of its first
recompute and the initial event recomputes the same state, so the previous visibility equals
the new one; `onEnter` and `onLeave` are not invoked, and `onVisible` is invoked exactly once
when the element is visible and `settings.onVisible` is a function, otherwise not at all.
With a number as the configured offset `_init` returns. -/
theorem init_dispatch (s : Settings) (dom : Dom) :
    (∀ d calls, _init s dom = Except.ok (d, calls) →
      _updateElementVisibility s dom initialData = Except.ok d ∧
      _updateElementVisibility s dom d = Except.ok d ∧
      invocations Call.isEnter calls = 0 ∧ invocations Call.isLeave calls = 0 ∧
      invocations Call.isVisible calls =
        (if d.element.visible = true ∧ isFunction s.onVisible = true then 1 else 0)) ∧
    (∀ n, s.offset = OffsetValue.num n → ∃ r, _init s dom = Except.ok r) := by
  constructor
  · intro d calls h
    obtain ⟨h1, h2, ev, rfl⟩ := init_ok s dom d calls h
    exact ⟨h1, h2, (dispatch_unchanged s _ ev).1, (dispatch_unchanged s _ ev).2,
      dispatch_visible s _ _ ev⟩
  · intro n hn
    exact init_num s dom n hn

/-! ## Visibility and progress -/

/-- For a window container, with `partiallyVisible` enabled, an element with left < right and
top < bottom is visible exactly when it overlaps the window. -/
theorem elementVisibility_window (s : Settings) (e : Rect) (W H : ℚ)
    (hpv : s.partiallyVisible = true) (hW : 0 < W) (hH : 0 < H)
    (hx : e.left < e.right) (hy : e.top < e.bottom) :
    elementVisibility s ⟨0, 0, W, H, W, H⟩ e (elementPosition ⟨0, 0, W, H, W, H⟩ e) = true ↔
      (e.left < W ∧ 0 < e.right ∧ e.top < H ∧ 0 < e.bottom) := by
  rw [elementVisibility_axes s _ _ _ hpv (position_all_eq _ _),
    position_left_iff _ _ (by simp), position_right_iff _ _ (by simp),
    position_top_iff _ _ (by simp), position_bottom_iff _ _ (by simp)]
  simp only
  constructor
  · rintro ⟨h1, h2⟩
    refine ⟨?_, ?_, ?_, ?_⟩
    · rcases h1 with h | h | h <;> linarith [h.1, h.2]
    · rcases h1 with h | h | h <;> linarith [h.1, h.2]
    · rcases h2 with h | h | h <;> linarith [h.1, h.2]
    · rcases h2 with h | h | h <;> linarith [h.1, h.2]
  · rintro ⟨h1, h2, h3, h4⟩
    constructor
    · by_cases hl : 0 ≤ e.left
      · exact Or.inl ⟨hl, h1⟩
      · by_cases hr : e.right < W
        · exact Or.inr (Or.inl ⟨h2, hr⟩)
        · exact Or.inr (Or.inr ⟨by linarith, by linarith⟩)
    · by_cases hl : 0 ≤ e.top
      · exact Or.inl ⟨hl, h3⟩
      · by_cases hr : e.bottom < H
        · exact Or.inr (Or.inl ⟨h4, hr⟩)
        · exact Or.inr (Or.inr ⟨by linarith, by linarith⟩)


/-! ## Binary64 rounding -/

/-- A number within less than one half of an integer rounds to that integer. -/
theorem roundHalfEven_eq (q : ℚ) (n : ℤ) (h : |q - n| < 1 / 2) : roundHalfEven q = n := by
  rw [abs_lt] at h
  obtain ⟨h1, h2⟩ := h
  by_cases hn : (n : ℚ) ≤ q
  · have hf : ⌊q⌋ = n := by
      rw [Int.floor_eq_iff]
      constructor
      · exact hn
      · linarith
    simp only [roundHalfEven, hf]
    rw [if_pos h2]
  · have hn : q < n := not_le.mp hn
    have hf : ⌊q⌋ = n - 1 := by
      rw [Int.floor_eq_iff]
      push_cast
      constructor <;> linarith
    simp only [roundHalfEven, hf]
    push_cast
    rw [if_neg (by linarith), if_pos (by linarith)]
    ring

/-- Rounding to the nearest integer does not go below the floor. -/
theorem floor_le_roundHalfEven (q : ℚ) : ⌊q⌋ ≤ roundHalfEven q := by
  simp only [roundHalfEven]
  split_ifs <;> omega

/-- The binary exponent of a positive number is fixed by the two powers of two around it. -/
theorem log_eq_of_bounds (q : ℚ) (e : ℤ) (hq : 0 < q) (h1 : (2 : ℚ) ^ e ≤ q)
    (h2 : q < (2 : ℚ) ^ (e + 1)) : Int.log 2 q = e := by
  have a : e ≤ Int.log 2 q :=
    (Int.zpow_le_iff_le_log (by norm_num) hq).mp (by exact_mod_cast h1)
  have b : Int.log 2 q < e + 1 :=
    (Int.lt_zpow_iff_log_lt (by norm_num) hq).mp (by exact_mod_cast h2)
  omega

/-- The binary64 value of a positive number between `2 ^ e` and `2 ^ (e + 1)` whose scaled
value is within less than one half of the integer `n`. -/
theorem binary64_eq_of_pos (q : ℚ) (e n : ℤ) (hq : 0 < q) (h1 : (2 : ℚ) ^ e ≤ q)
    (h2 : q < (2 : ℚ) ^ (e + 1)) (hn : |q / 2 ^ (e - 52) - n| < 1 / 2) :
    binary64 q = n * 2 ^ (e - 52) := by
  simp only [binary64, ne_of_gt hq, if_false, hq, if_true, log_eq_of_bounds q e hq h1 h2,
    roundHalfEven_eq _ n hn]

/-- Zero is a binary64 number. -/
theorem binary64_zero : binary64 0 = 0 := by
  simp [binary64]

/-- Rounding commutes with negation. -/
theorem binary64_neg (q : ℚ) : binary64 (-q) = -binary64 q := by
  rcases lt_trichotomy q 0 with h | h | h
  · have h' : 0 < -q := by linarith
    simp [binary64, ne_of_lt h, ne_of_gt h', h', not_lt.mpr (le_of_lt h)]
  · simp [binary64, h]
  · have h' : ¬ (0 < -q) := by linarith
    simp [binary64, ne_of_gt h, h, h']

/-- The binary64 value of a positive number is at least the power of two below it. -/
theorem zpow_log_le_binary64 (q : ℚ) (hq : 0 < q) : (2 : ℚ) ^ Int.log 2 q ≤ binary64 q := by
  have h1 : (2 : ℚ) ^ Int.log 2 q ≤ q := by
    have := Int.zpow_log_le_self (b := 2) (by norm_num) hq
    exact_mod_cast this
  have hpos : (0 : ℚ) < 2 ^ (Int.log 2 q - 52) := by positivity
  have hm : (((2 : ℤ) ^ 52 : ℤ) : ℚ) = (2 : ℚ) ^ (52 : ℤ) := by norm_num
  have key : (2 : ℚ) ^ Int.log 2 q = (2 : ℚ) ^ (52 : ℤ) * 2 ^ (Int.log 2 q - 52) := by
    rw [← zpow_add₀ (by norm_num : (2 : ℚ) ≠ 0)]
    congr 1
    ring
  have hx : (((2 : ℤ) ^ 52 : ℤ) : ℚ) ≤ q / 2 ^ (Int.log 2 q - 52) := by
    rw [le_div_iff₀ hpos, hm, ← key]
    exact h1
  have hn : ((2 : ℤ) ^ 52 : ℤ) ≤ roundHalfEven (q / 2 ^ (Int.log 2 q - 52)) :=
    le_trans (Int.le_floor.mpr hx) (floor_le_roundHalfEven _)
  have hn' : (((2 : ℤ) ^ 52 : ℤ) : ℚ) ≤ (roundHalfEven (q / 2 ^ (Int.log 2 q - 52)) : ℚ) :=
    Int.cast_le.mpr hn
  simp only [binary64, ne_of_gt hq, if_false, hq, if_true]
  rw [key, ← hm]
  exact mul_le_mul_of_nonneg_right hn' (le_of_lt hpos)

/-- The binary64 value of a positive number is positive. -/
theorem binary64_pos (q : ℚ) (hq : 0 < q) : 0 < binary64 q :=
  lt_of_lt_of_le (by positivity) (zpow_log_le_binary64 q hq)

/-- The binary64 value of a number that is at most 0 is at most 0. -/
theorem binary64_nonpos (q : ℚ) (hq : q ≤ 0) : binary64 q ≤ 0 := by
  rcases eq_or_lt_of_le hq with h | h
  · rw [h, binary64_zero]
  · have := binary64_pos (-q) (by linarith)
    rw [binary64_neg] at this
    linarith

/-- The binary64 value of a number that is at least 1 is at least 1. -/
theorem one_le_binary64 (q : ℚ) (hq : 1 ≤ q) : 1 ≤ binary64 q := by
  have hpos : 0 < q := by linarith
  have h0 : (0 : ℤ) ≤ Int.log 2 q :=
    (Int.zpow_le_iff_le_log (by norm_num) hpos).mp (by simpa using hq)
  have h1 : (1 : ℚ) ≤ 2 ^ Int.log 2 q := one_le_zpow₀ (by norm_num) h0
  exact le_trans h1 (zpow_log_le_binary64 q hpos)

/-- An integer below `2 ^ 53` in size times a power of two is a binary64 number. -/
theorem binary64_dyadic (k j : ℤ) (hk : |k| < 2 ^ 53) :
    binary64 ((k : ℚ) * 2 ^ j) = (k : ℚ) * 2 ^ j := by
  have pos : ∀ m : ℤ, 0 < m → m < 2 ^ 53 → binary64 ((m : ℚ) * 2 ^ j) = (m : ℚ) * 2 ^ j := by
    intro m hm hm2
    have h2j : (0 : ℚ) < 2 ^ j := by positivity
    have hq : (0 : ℚ) < (m : ℚ) * 2 ^ j := mul_pos (Int.cast_pos.mpr hm) h2j
    have h1 : (2 : ℚ) ^ Int.log 2 ((m : ℚ) * 2 ^ j) ≤ (m : ℚ) * 2 ^ j := by
      have := Int.zpow_log_le_self (b := 2) (by norm_num) hq
      exact_mod_cast this
    have h2 : (m : ℚ) * 2 ^ j < (2 : ℚ) ^ (Int.log 2 ((m : ℚ) * 2 ^ j) + 1) := by
      have := Int.lt_zpow_succ_log_self (b := 2) (by norm_num) ((m : ℚ) * 2 ^ j)
      exact_mod_cast this
    have hlt : (m : ℚ) * 2 ^ j < (2 : ℚ) ^ (53 + j) := by
      rw [zpow_add₀ (by norm_num : (2 : ℚ) ≠ 0)]
      apply mul_lt_mul_of_pos_right _ h2j
      have h53 : (2 : ℚ) ^ (53 : ℤ) = (((2 : ℤ) ^ 53 : ℤ) : ℚ) := by norm_num
      rw [h53]
      exact Int.cast_lt.mpr hm2
    have he : Int.log 2 ((m : ℚ) * 2 ^ j) < 53 + j :=
      (zpow_lt_zpow_iff_right₀ (by norm_num : (1 : ℚ) < 2)).mp (lt_of_le_of_lt h1 hlt)
    obtain ⟨t, ht⟩ : ∃ t : ℕ, (t : ℤ) = j - (Int.log 2 ((m : ℚ) * 2 ^ j) - 52) :=
      ⟨(j - (Int.log 2 ((m : ℚ) * 2 ^ j) - 52)).toNat, Int.toNat_of_nonneg (by omega)⟩
    have hscaled : (m : ℚ) * 2 ^ j / 2 ^ (Int.log 2 ((m : ℚ) * 2 ^ j) - 52) =
        ((m * 2 ^ t : ℤ) : ℚ) := by
      rw [mul_div_assoc, ← zpow_sub₀ (by norm_num : (2 : ℚ) ≠ 0), ← ht]
      push_cast
      rw [zpow_natCast]
    rw [binary64_eq_of_pos _ _ (m * 2 ^ t) hq h1 h2 (by rw [hscaled]; simp)]
    push_cast
    rw [mul_assoc, ← zpow_natCast, ht, ← zpow_add₀ (by norm_num : (2 : ℚ) ≠ 0)]
    congr 2
    ring
  rcases lt_trichotomy k 0 with h | h | h
  · have hk' : -k < 2 ^ 53 := by
      have := abs_lt.mp hk
      omega
    have := pos (-k) (by omega) hk'
    push_cast at this
    rw [neg_mul, binary64_neg] at this
    exact neg_injective this
  · simp [h, binary64_zero]
  · exact pos k h (abs_lt.mp hk).2

/-- Rounding to the nearest integer does not pass an integer above the number. -/
theorem roundHalfEven_le (q : ℚ) (n : ℤ) (h : q ≤ n) : roundHalfEven q ≤ n := by
  have hf : ⌊q⌋ ≤ n := Int.floor_le_iff.mpr (by linarith [Int.floor_le q, Int.lt_floor_add_one q])
  have hstep : (1 : ℚ) / 2 ≤ q - ⌊q⌋ → ⌊q⌋ + 1 ≤ n := by
    intro h2
    have : ((⌊q⌋ : ℤ) : ℚ) < n := by linarith
    have := Int.cast_lt.mp this
    omega
  simp only [roundHalfEven]
  split_ifs with h1 h2 h3
  · exact hf
  · exact hstep (le_of_lt h2)
  · exact hf
  · exact hstep (not_lt.mp h1)

/-- The binary64 value of a positive number does not pass a multiple of its unit in the last
place that is above the number. -/
theorem binary64_le_grid (q : ℚ) (n : ℤ) (hq : 0 < q)
    (h : q ≤ (n : ℚ) * 2 ^ (Int.log 2 q - 52)) :
    binary64 q ≤ (n : ℚ) * 2 ^ (Int.log 2 q - 52) := by
  have hpos : (0 : ℚ) < 2 ^ (Int.log 2 q - 52) := by positivity
  simp only [binary64, ne_of_gt hq, if_false, hq, if_true]
  exact mul_le_mul_of_nonneg_right
    (Int.cast_le.mpr (roundHalfEven_le _ n (by rw [div_le_iff₀ hpos]; exact h))) (le_of_lt hpos)

/-- A positive number up to the largest binary64 number below 1 is not rounded up to 1. -/
theorem binary64_lt_one_of_le (q : ℚ) (hq : 0 < q) (h : q ≤ 1 - 1 / 2 ^ 53) :
    binary64 q < 1 := by
  have hlt : q < (2 : ℚ) ^ (0 : ℤ) := by
    norm_num
    linarith [show (0 : ℚ) < 1 / 2 ^ 53 by positivity]
  have hl : Int.log 2 q < 0 := (Int.lt_zpow_iff_log_lt (by norm_num) hq).mp (by exact_mod_cast hlt)
  have h2 : q < (2 : ℚ) ^ (Int.log 2 q + 1) := by
    have := Int.lt_zpow_succ_log_self (b := 2) (by norm_num) q
    exact_mod_cast this
  rcases eq_or_lt_of_le (show Int.log 2 q ≤ -1 by omega) with he | he
  · have hu : (2 : ℚ) ^ (Int.log 2 q - 52) = 1 / 2 ^ 53 := by
      rw [he]
      norm_num
    have := binary64_le_grid q (2 ^ 53 - 1) hq (by rw [hu]; push_cast; linarith)
    rw [hu] at this
    push_cast at this
    linarith [show (0 : ℚ) < 1 / 2 ^ 53 by positivity]
  · have key : ((2 ^ 53 : ℤ) : ℚ) * 2 ^ (Int.log 2 q - 52) = 2 ^ (Int.log 2 q + 1) := by
      have h53 : (((2 : ℤ) ^ 53 : ℤ) : ℚ) = (2 : ℚ) ^ (53 : ℤ) := by norm_num
      rw [h53, ← zpow_add₀ (by norm_num : (2 : ℚ) ≠ 0)]
      congr 1
      ring
    have := binary64_le_grid q (2 ^ 53) hq (by rw [key]; exact le_of_lt h2)
    rw [key] at this
    have hle : (2 : ℚ) ^ (Int.log 2 q + 1) ≤ 2 ^ (-1 : ℤ) :=
      zpow_le_zpow_right₀ (by norm_num) (by omega)
    have : binary64 q ≤ 2 ^ (-1 : ℤ) := le_trans this hle
    norm_num at this
    linarith

/-- A positive binary64 number is an integer times its unit in the last place, and lies
between the two powers of two around it. -/
theorem binary64_repr (a : ℚ) (ha : binary64 a = a) (h0 : 0 < a) :
    ∃ n : ℤ, a = (n : ℚ) * 2 ^ (Int.log 2 a - 52) ∧
      (2 ^ 53 : ℚ) * 2 ^ (Int.log 2 a - 52) ≤ 2 * a ∧
      a < (2 ^ 53 : ℚ) * 2 ^ (Int.log 2 a - 52) := by
  have key : (2 ^ 53 : ℚ) * 2 ^ (Int.log 2 a - 52) = 2 ^ (Int.log 2 a + 1) := by
    have h53 : (2 ^ 53 : ℚ) = (2 : ℚ) ^ (53 : ℤ) := by norm_num
    rw [h53, ← zpow_add₀ (by norm_num : (2 : ℚ) ≠ 0)]
    congr 1
    ring
  have h1 : (2 : ℚ) ^ Int.log 2 a ≤ a := by
    have := Int.zpow_log_le_self (b := 2) (by norm_num) h0
    exact_mod_cast this
  have h2 : a < (2 : ℚ) ^ (Int.log 2 a + 1) := by
    have := Int.lt_zpow_succ_log_self (b := 2) (by norm_num) a
    exact_mod_cast this
  refine ⟨roundHalfEven (a / 2 ^ (Int.log 2 a - 52)), ?_, ?_, ?_⟩
  · simp only [binary64, ne_of_gt h0, if_false, h0, if_true] at ha
    exact ha.symm
  · rw [key, zpow_add₀ (by norm_num : (2 : ℚ) ≠ 0)]
    norm_num
    linarith
  · rw [key]
    exact h2

/-- The quotient of two positive binary64 numbers, the smaller by the larger, is at most the
largest binary64 number below 1. -/
theorem div_le_of_binary64_lt (a b : ℚ) (ha : binary64 a = a) (hb : binary64 b = b)
    (h0 : 0 < a) (hab : a < b) : a / b ≤ 1 - 1 / 2 ^ 53 := by
  have hb0 : 0 < b := lt_trans h0 hab
  obtain ⟨na, hna, -, ha2⟩ := binary64_repr a ha h0
  obtain ⟨nb, hnb, hb1, hb2⟩ := binary64_repr b hb hb0
  have hlog : Int.log 2 a ≤ Int.log 2 b := Int.log_mono_right h0 (le_of_lt hab)
  rw [div_le_iff₀ hb0]
  rcases eq_or_lt_of_le hlog with he | he
  · rw [← he] at hnb hb2
    have hu : (0 : ℚ) < 2 ^ (Int.log 2 a - 52) := by positivity
    have hlt : (na : ℚ) < nb := by
      have : (na : ℚ) * 2 ^ (Int.log 2 a - 52) < (nb : ℚ) * 2 ^ (Int.log 2 a - 52) := by
        rw [← hna, ← hnb]
        exact hab
      exact lt_of_mul_lt_mul_right this (le_of_lt hu)
    have hle : ((na + 1 : ℤ) : ℚ) ≤ nb := Int.cast_le.mpr (Int.cast_lt.mp hlt)
    have hstep : a + 2 ^ (Int.log 2 a - 52) ≤ b := by
      have := mul_le_mul_of_nonneg_right hle (le_of_lt hu)
      push_cast at this
      rw [← hnb, add_mul, ← hna, one_mul] at this
      exact this
    linarith
  · have hu : (0 : ℚ) < 2 ^ (Int.log 2 a - 52) := by positivity
    have hlt : (na : ℚ) < ((2 ^ 53 : ℤ) : ℚ) := by
      have : (na : ℚ) * 2 ^ (Int.log 2 a - 52) < (2 ^ 53 : ℚ) * 2 ^ (Int.log 2 a - 52) := by
        rw [← hna]
        exact ha2
      have := lt_of_mul_lt_mul_right this (le_of_lt hu)
      push_cast
      exact this
    have hle : ((na + 1 : ℤ) : ℚ) ≤ ((2 ^ 53 : ℤ) : ℚ) := Int.cast_le.mpr (Int.cast_lt.mp hlt)
    have hstep : a + 2 ^ (Int.log 2 a - 52) ≤ (2 ^ 53 : ℚ) * 2 ^ (Int.log 2 a - 52) := by
      have := mul_le_mul_of_nonneg_right hle (le_of_lt hu)
      push_cast at this
      rw [add_mul, ← hna, one_mul] at this
      exact this
    have hpow : (2 ^ 53 : ℚ) * 2 ^ (Int.log 2 a - 52) ≤ 2 ^ Int.log 2 b := by
      have h53 : (2 ^ 53 : ℚ) = (2 : ℚ) ^ (53 : ℤ) := by norm_num
      rw [h53, ← zpow_add₀ (by norm_num : (2 : ℚ) ≠ 0)]
      exact zpow_le_zpow_right₀ (by norm_num) (by omega)
    have hb3 : (2 : ℚ) ^ Int.log 2 b ≤ b := by
      have := Int.zpow_log_le_self (b := 2) (by norm_num) hb0
      exact_mod_cast this
    linarith

/-- The rounded quotient of a binary64 number by a positive binary64 number lies strictly
between 0 and 1 exactly when the exact quotient does. -/
theorem binary64_div_strict (a b : ℚ) (ha : binary64 a = a) (hb : binary64 b = b)
    (hb0 : 0 < b) :
    (0 < binary64 (a / b) ∧ binary64 (a / b) < 1) ↔ (0 < a ∧ a < b) := by
  constructor
  · rintro ⟨h1, h2⟩
    constructor
    · by_contra h
      have : a / b ≤ 0 := div_nonpos_of_nonpos_of_nonneg (not_lt.mp h) (le_of_lt hb0)
      linarith [binary64_nonpos _ this]
    · by_contra h
      have : 1 ≤ a / b := (one_le_div hb0).mpr (not_lt.mp h)
      linarith [one_le_binary64 _ this]
  · rintro ⟨h1, h2⟩
    exact ⟨binary64_pos _ (div_pos h1 hb0),
      binary64_lt_one_of_le _ (div_pos h1 hb0) (div_le_of_binary64_lt a b ha hb h1 h2)⟩

/-! ## The recompute in binary64 -/

/-- With exact differences the rounded edge tests are the exact edge tests. -/
theorem elementPosition64_eq (c e : Rect)
    (ht : binary64 (c.top - e.top) = c.top - e.top)
    (hb : binary64 (c.bottom - e.bottom) = c.bottom - e.bottom)
    (hl : binary64 (c.left - e.left) = c.left - e.left)
    (hr : binary64 (c.right - e.right) = c.right - e.right) :
    elementPosition64 c e = elementPosition c e := by
  simp only [elementPosition64, elementPosition, ht, hb, hl, hr]

/-- For a window container and an element whose fields are binary64 numbers, the rounded edge
tests are the exact ones as soon as the two differences from the far edges are exact. -/
theorem elementPosition64_window (e : Rect) (W H : ℚ) (he : e.isBinary64)
    (hb : binary64 (H - e.bottom) = H - e.bottom)
    (hr : binary64 (W - e.right) = W - e.right) :
    elementPosition64 ⟨0, 0, W, H, W, H⟩ e = elementPosition ⟨0, 0, W, H, W, H⟩ e := by
  obtain ⟨hl, ht, -, -, -, -⟩ := he
  apply elementPosition64_eq
  · simp only [zero_sub, binary64_neg, ht]
  · exact hb
  · simp only [zero_sub, binary64_neg, hl]
  · exact hr

/-- The offset of the number 0 leaves a rectangle of binary64 numbers as it is. -/
theorem elemData64_zero (r : Rect) (hr : r.isBinary64) :
    elemData64 r (numberOffset 0) = r := by
  obtain ⟨h1, h2, h3, h4, h5, h6⟩ := hr
  rcases r with ⟨l, t, rr, b, w, h⟩
  simp only at h1 h2 h3 h4 h5 h6
  simp [elemData64, numberOffset, binary64_zero, h1, h2, h3, h4, h5, h6]

/-- When both rectangles are stored, `_getPercentX` in binary64 returns the value of its
branches. -/
theorem getPercentX64_some (s : Settings) (d : Data) (c e : Rect)
    (hc : d.container.rect = some c) (he : d.element.rect = some e) :
    _getPercentX64 s d = Except.ok (percentX64 s e c d.element.position) := by
  simp only [_getPercentX64, overflowsX_some d c e hc he, readRect, hc, he, percentX64]
  generalize decide (e.left < 0) = x1
  generalize decide (e.right ≥ c.width) = x2
  rcases d.element.position with ⟨t, b, l, r, a⟩
  cases s.ignoreOverflow <;> cases l <;> cases r <;> cases x1 <;> cases x2 <;> rfl

/-- When both rectangles are stored, `_getPercentY` in binary64 returns the value of its
branches. -/
theorem getPercentY64_some (s : Settings) (d : Data) (c e : Rect)
    (hc : d.container.rect = some c) (he : d.element.rect = some e) :
    _getPercentY64 s d = Except.ok (percentY64 s e c d.element.position) := by
  simp only [_getPercentY64, overflowsY_some d c e hc he, readRect, hc, he, percentY64]
  generalize decide (e.top < 0) = y1
  generalize decide (e.bottom ≥ c.height) = y2
  rcases d.element.position with ⟨t, b, l, r, a⟩
  cases s.ignoreOverflow <;> cases t <;> cases b <;> cases y1 <;> cases y2 <;> rfl

/-- With a number configured as the offset, the binary64 recompute returns the state computed
with rounded operations. -/
theorem updateElementVisibility64_num (s : Settings) (dom : Dom) (d : Data) (n : ℚ)
    (h : s.offset = OffsetValue.num n) :
    _updateElementVisibility64 s dom d = Except.ok (recomputed64 s dom (numberOffset n)) := by
  simp only [_updateElementVisibility64, _setElementOffset, offsetSetting, h, _setElementData64,
    _setContainerData, _setElementPosition64, bind, Except.bind]
  rw [setElementVisibility_some s _ (contData s dom)
    (elemData64 dom.elementRect (numberOffset n)) rfl rfl]
  simp only [_setElementPercent64, bind, Except.bind]
  rw [getPercentY64_some s _ (contData s dom) (elemData64 dom.elementRect (numberOffset n))
      rfl rfl,
    getPercentX64_some s _ (contData s dom) (elemData64 dom.elementRect (numberOffset n))
      rfl rfl]
  simp [_setElementProgress64, _getProgressX64, _getProgressY64, bind, Except.bind, pure,
    Except.pure, recomputed64]

/-- The fields of the element of `sliverDom` are binary64 numbers. -/
theorem sliver_isBinary64 : sliverDom.elementRect.isBinary64 := by
  have h100 := binary64_dyadic 100 0 (by norm_num)
  have h200 := binary64_dyadic (-200) 0 (by norm_num)
  have h300 := binary64_dyadic 300 0 (by norm_num)
  have hb := binary64_dyadic 1 (-45) (by norm_num)
  have hw := binary64_dyadic 200 0 (by norm_num)
  have hh := binary64_dyadic (200 * 2 ^ 45 + 1) (-45) (by norm_num)
  norm_num at h100 h200 h300 hb hw hh
  simp only [Rect.isBinary64, sliverDom]
  norm_num
  exact ⟨h100, h200, h300, hb, hw, hh⟩

/-- In binary64, 800 - 2^-45 is 800. -/
theorem binary64_sliver : binary64 (800 - 1 / 2 ^ 45) = 800 := by
  rw [binary64_eq_of_pos (800 - 1 / 2 ^ 45) 9 (800 * 2 ^ 43) (by norm_num) (by norm_num)
    (by norm_num) (by norm_num [abs_lt])]
  norm_num

/-- The rounded edge tests on `sliverDom`: left and right in view, top and bottom not. -/
theorem elementPosition64_sliver :
    elementPosition64 sliverDom.containerRect sliverDom.elementRect =
      ⟨false, false, true, true, false⟩ := by
  have h200 : binary64 (0 - -200) = 200 := by
    have := binary64_dyadic 200 0 (by norm_num)
    norm_num at this ⊢
    exact this
  have h100 : binary64 (0 - 100) = -100 := by
    have := binary64_dyadic (-100) 0 (by norm_num)
    norm_num at this ⊢
    exact this
  have h700 : binary64 (1000 - 300) = 700 := by
    have := binary64_dyadic 700 0 (by norm_num)
    norm_num at this ⊢
    exact this
  simp only [elementPosition64, sliverDom, h200, h100, h700, binary64_sliver]
  norm_num

/-- With a divisor that is exact and not zero, `_getProgressX` in binary64 computes the clamp
of the rounded quotient. -/
theorem progressX64_eq (e c : Rect) (he : binary64 e.right = e.right)
    (hs : binary64 (c.width + e.width) = c.width + e.width) (hl : c.left = 0)
    (h : c.width + e.width ≠ 0) :
    progressX64 e c =
      JSNum.fin (max 0 (min 1 (binary64 (e.right / (c.width + e.width))))) := by
  simp [progressX64, jsDiv64, hl, he, hs, h, normalizePercent_fin]

/-- With a divisor that is exact and not zero, `_getProgressY` in binary64 computes the clamp
of the rounded quotient. -/
theorem progressY64_eq (e c : Rect) (he : binary64 e.bottom = e.bottom)
    (hs : binary64 (c.height + e.height) = c.height + e.height) (ht : c.top = 0)
    (h : c.height + e.height ≠ 0) :
    progressY64 e c =
      JSNum.fin (max 0 (min 1 (binary64 (e.bottom / (c.height + e.height))))) := by
  simp [progressY64, jsDiv64, ht, he, hs, h, normalizePercent_fin]

/-- Claim C21 as stated fails in binary64. The state holds a 1000 by 800 window rectangle and
an element whose bottom edge 2^-45 is strictly between the container's top 0 and bottom 800
(every field a binary64 number): 800 - 2^-45 rounds to 800, which is not below the height,
and `_setElementPosition` leaves `position.bottom` false. -/
theorem setElementPosition64_sliver :
    sliverData.container.rect = some ⟨0, 0, 1000, 800, 1000, 800⟩ ∧
    sliverData.element.rect = some ⟨100, -200, 300, 1 / 2 ^ 45, 200, 200 + 1 / 2 ^ 45⟩ ∧
    sliverDom.elementRect.isBinary64 ∧
    binary64 (800 - 1 / 2 ^ 45) = 800 ∧
    (∃ d', _setElementPosition64 sliverData = Except.ok d' ∧
      d'.element.position.bottom = false) ∧
    ((0 : ℚ) < 1 / 2 ^ 45 ∧ (1 : ℚ) / 2 ^ 45 < 800) := by
  refine ⟨rfl, rfl, sliver_isBinary64, binary64_sliver, ⟨_, rfl, ?_⟩, by norm_num, by norm_num⟩
  show (elementPosition64 sliverDom.containerRect sliverDom.elementRect).bottom = false
  rw [elementPosition64_sliver]

/-- Claim C21, amended: for a container with right = left + width, bottom = top + height and
positive extents, and provided each of the four differences container edge - element edge is
exact in binary64, `_setElementPosition` run on a state that holds both rectangles returns
and sets each edge flag by the stated interval test, `all` exactly when the four flags are
set; an element edge on the matching container edge is in view for top and left and not in
view for bottom and right. -/
theorem setElementPosition64_edges (d : Data) (c e : Rect) (hc : d.container.rect = some c)
    (he : d.element.rect = some e) (hr : c.right = c.left + c.width)
    (hb : c.bottom = c.top + c.height) (hw : 0 < c.width) (hh : 0 < c.height)
    (het : binary64 (c.top - e.top) = c.top - e.top)
    (heb : binary64 (c.bottom - e.bottom) = c.bottom - e.bottom)
    (hel : binary64 (c.left - e.left) = c.left - e.left)
    (her : binary64 (c.right - e.right) = c.right - e.right) :
    ∃ d', _setElementPosition64 d = Except.ok d' ∧
      (d'.element.position.top = true ↔ (c.top ≤ e.top ∧ e.top < c.bottom)) ∧
      (d'.element.position.left = true ↔ (c.left ≤ e.left ∧ e.left < c.right)) ∧
      (d'.element.position.bottom = true ↔ (c.top < e.bottom ∧ e.bottom < c.bottom)) ∧
      (d'.element.position.right = true ↔ (c.left < e.right ∧ e.right < c.right)) ∧
      (d'.element.position.all = true ↔
        (d'.element.position.top = true ∧ d'.element.position.left = true ∧
          d'.element.position.bottom = true ∧ d'.element.position.right = true)) ∧
      (e.top = c.top → d'.element.position.top = true) ∧
      (e.left = c.left → d'.element.position.left = true) ∧
      (e.bottom = c.bottom → d'.element.position.bottom = false) ∧
      (e.right = c.right → d'.element.position.right = false) := by
  refine ⟨{ d with element := { d.element with position := elementPosition c e } }, ?_,
    position_top_iff c e hb, position_left_iff c e hr, position_bottom_iff c e hb,
    position_right_iff c e hr, ?_, ?_, ?_, ?_, ?_⟩
  · simp only [_setElementPosition64, hc, he, elementPosition64_eq c e het heb hel her]
  · simp only [position_all_eq, Bool.and_eq_true]
    tauto
  · intro h
    exact (position_top_iff c e hb).mpr ⟨by linarith, by linarith⟩
  · intro h
    exact (position_left_iff c e hr).mpr ⟨by linarith, by linarith⟩
  · intro h
    simp only [Bool.eq_false_iff, Ne, position_bottom_iff c e hb]
    rintro ⟨-, h2⟩
    linarith
  · intro h
    simp only [Bool.eq_false_iff, Ne, position_right_iff c e hr]
    rintro ⟨-, h2⟩
    linarith

/-- Claim C21 at a concrete input: the state of `windowData`, whose four differences -100,
500, -100 and 700 are exact. -/
theorem setElementPosition64_edges_witness :
    (windowData.container.rect = some ⟨0, 0, 1000, 800, 1000, 800⟩ ∧
      windowData.element.rect = some ⟨100, 100, 300, 300, 200, 200⟩ ∧
      (1000 : ℚ) = 0 + 1000 ∧ (800 : ℚ) = 0 + 800 ∧ (0 : ℚ) < 1000 ∧ (0 : ℚ) < 800 ∧
      binary64 (0 - 100) = 0 - 100 ∧ binary64 (800 - 300) = 800 - 300 ∧
      binary64 (0 - 100) = 0 - 100 ∧ binary64 (1000 - 300) = 1000 - 300) ∧
    ∃ d', _setElementPosition64 windowData = Except.ok d' ∧
      d'.element.position = ⟨true, true, true, true, true⟩ :=
  have hc : windowData.container.rect = some ⟨0, 0, 1000, 800, 1000, 800⟩ := by
    simp [windowData, recomputed, contData, defaults, windowDom]
  have he : windowData.element.rect = some ⟨100, 100, 300, 300, 200, 200⟩ := by
    norm_num [windowData, recomputed, elemData, numberOffset, windowDom]
  have h1 : binary64 (0 - 100) = 0 - 100 := by
    have := binary64_dyadic (-100) 0 (by norm_num)
    norm_num at this ⊢
    exact this
  have h2 : binary64 (800 - 300) = 800 - 300 := by
    have := binary64_dyadic 500 0 (by norm_num)
    norm_num at this ⊢
    exact this
  have h3 : binary64 (1000 - 300) = 1000 - 300 := by
    have := binary64_dyadic 700 0 (by norm_num)
    norm_num at this ⊢
    exact this
  ⟨⟨hc, he, by norm_num, by norm_num, by norm_num, by norm_num, h1, h2, h1, h3⟩,
    (setElementPosition64_edges windowData _ _ hc he (by norm_num) (by norm_num) (by norm_num)
      (by norm_num) h1 h2 h1 h3).elim fun d' h => ⟨d', h.1, by
        obtain ⟨-, h1, h2, h3, h4, h5, -⟩ := h
        have t : d'.element.position.top = true := h1.mpr (by norm_num)
        have l : d'.element.position.left = true := h2.mpr (by norm_num)
        have b : d'.element.position.bottom = true := h3.mpr (by norm_num)
        have r : d'.element.position.right = true := h4.mpr (by norm_num)
        have a : d'.element.position.all = true := h5.mpr ⟨t, l, b, r⟩
        rcases hp : d'.element.position with ⟨t', b', l', r', a'⟩
        rw [hp] at t l b r a
        simp only at t l b r a
        subst t l b r a
        rfl⟩⟩

/-- The binary64 recompute of the default settings on `sliverDom` returns the state computed
with rounded operations: the element rectangle is the raw one and the element is not
visible. -/
theorem updateElementVisibility64_sliver :
    _updateElementVisibility64 defaults sliverDom initialData =
      Except.ok (recomputed64 defaults sliverDom (numberOffset 0)) ∧
    (recomputed64 defaults sliverDom (numberOffset 0)).element.rect =
      some sliverDom.elementRect ∧
    (recomputed64 defaults sliverDom (numberOffset 0)).element.visible = false := by
  have hc : contData defaults sliverDom = sliverDom.containerRect := by
    simp [contData, defaults, sliverDom]
  refine ⟨updateElementVisibility64_num defaults sliverDom initialData 0 rfl, ?_, ?_⟩
  · simp only [recomputed64, elemData64_zero _ sliver_isBinary64]
  · simp only [recomputed64, elemData64_zero _ sliver_isBinary64, hc, elementPosition64_sliver]
    norm_num [elementVisibility, defaults, sliverDom]

/-- Claim C5 as stated fails in binary64. With the default settings (`partiallyVisible`
enabled, offset 0, the window as the container) on `sliverDom`, whose element has left <
right and top < bottom and overlaps the 1000 by 800 window in a strip 2^-45 high, the
recompute returns with `visible` false. -/
theorem visible64_sliver :
    (defaults.partiallyVisible = true ∧ defaults.offset = OffsetValue.num 0 ∧
      defaults.containerIsWindow = true ∧ sliverDom.elementRect.isBinary64) ∧
    (∃ d', _updateElementVisibility64 defaults sliverDom initialData = Except.ok d' ∧
      d'.container.rect = some ⟨0, 0, 1000, 800, 1000, 800⟩ ∧
      d'.element.rect = some ⟨100, -200, 300, 1 / 2 ^ 45, 200, 200 + 1 / 2 ^ 45⟩ ∧
      d'.element.visible = false) ∧
    (sliverDom.elementRect.left < sliverDom.elementRect.right ∧
      sliverDom.elementRect.top < sliverDom.elementRect.bottom ∧
      sliverDom.elementRect.left < sliverDom.windowWidth ∧ sliverDom.elementRect.right > 0 ∧
      sliverDom.elementRect.top < sliverDom.windowHeight ∧
      sliverDom.elementRect.bottom > 0) := by
  obtain ⟨h1, h2, h3⟩ := updateElementVisibility64_sliver
  refine ⟨⟨rfl, rfl, rfl, sliver_isBinary64⟩, ⟨_, h1, ?_, ?_, h3⟩, ?_⟩
  · simp [recomputed64, contData, defaults, sliverDom]
  · rw [h2]
    rfl
  · norm_num [sliverDom]

/-- Claim C5, amended: with `partiallyVisible` enabled, offset 0 and the window as the
container, for an element rectangle of binary64 numbers with left < right and top < bottom
and provided the differences window width - right and window height - bottom are exact in
binary64, the recompute returns, the container rectangle is the window rectangle, and
`visible` is true exactly when the element rectangle overlaps it. -/
theorem visible64_iff_overlap (s : Settings) (dom : Dom) (d : Data)
    (hpv : s.partiallyVisible = true) (hoff : s.offset = OffsetValue.num 0)
    (hwin : s.containerIsWindow = true) (hW : 0 < dom.windowWidth) (hH : 0 < dom.windowHeight)
    (hx : dom.elementRect.left < dom.elementRect.right)
    (hy : dom.elementRect.top < dom.elementRect.bottom)
    (hrep : dom.elementRect.isBinary64)
    (her : binary64 (dom.windowWidth - dom.elementRect.right) =
      dom.windowWidth - dom.elementRect.right)
    (heb : binary64 (dom.windowHeight - dom.elementRect.bottom) =
      dom.windowHeight - dom.elementRect.bottom) :
    ∃ d', _updateElementVisibility64 s dom d = Except.ok d' ∧
      d'.container.rect = some ⟨0, 0, dom.windowWidth, dom.windowHeight, dom.windowWidth,
        dom.windowHeight⟩ ∧
      (d'.element.visible = true ↔
        (dom.elementRect.left < dom.windowWidth ∧ dom.elementRect.right > 0 ∧
          dom.elementRect.top < dom.windowHeight ∧ dom.elementRect.bottom > 0)) := by
  refine ⟨_, updateElementVisibility64_num s dom d 0 hoff, ?_, ?_⟩
  · simp [recomputed64, contData_window s dom hwin]
  · simp only [recomputed64, elemData64_zero _ hrep, contData_window s dom hwin]
    rw [elementPosition64_window _ _ _ hrep heb her]
    exact elementVisibility_window s dom.elementRect _ _ hpv hW hH hx hy

/-- The fields of the element of `windowDom` are binary64 numbers, and so are its distances
700 and 500 from the far edges of the window and the sums 1200 and 1000 of the extents. -/
theorem windowDom_isBinary64 :
    windowDom.elementRect.isBinary64 ∧
    binary64 (windowDom.windowWidth - windowDom.elementRect.right) =
      windowDom.windowWidth - windowDom.elementRect.right ∧
    binary64 (windowDom.windowHeight - windowDom.elementRect.bottom) =
      windowDom.windowHeight - windowDom.elementRect.bottom ∧
    binary64 (windowDom.windowWidth + windowDom.elementRect.width) =
      windowDom.windowWidth + windowDom.elementRect.width ∧
    binary64 (windowDom.windowHeight + windowDom.elementRect.height) =
      windowDom.windowHeight + windowDom.elementRect.height := by
  have h100 := binary64_dyadic 100 0 (by norm_num)
  have h200 := binary64_dyadic 200 0 (by norm_num)
  have h300 := binary64_dyadic 300 0 (by norm_num)
  have h500 := binary64_dyadic 500 0 (by norm_num)
  have h700 := binary64_dyadic 700 0 (by norm_num)
  have h1000 := binary64_dyadic 1000 0 (by norm_num)
  have h1200 := binary64_dyadic 1200 0 (by norm_num)
  norm_num at h100 h200 h300 h500 h700 h1000 h1200
  simp only [Rect.isBinary64, windowDom]
  norm_num
  exact ⟨⟨h100, h300, h200⟩, h700, h500, h1200, h1000⟩

/-- Claim C5 at a concrete input: the default settings on `windowDom`. -/
theorem visible64_iff_overlap_witness :
    (defaults.partiallyVisible = true ∧ defaults.offset = OffsetValue.num 0 ∧
      defaults.containerIsWindow = true ∧ 0 < windowDom.windowWidth ∧
      0 < windowDom.windowHeight ∧ windowDom.elementRect.left < windowDom.elementRect.right ∧
      windowDom.elementRect.top < windowDom.elementRect.bottom ∧
      windowDom.elementRect.isBinary64 ∧
      binary64 (windowDom.windowWidth - windowDom.elementRect.right) =
        windowDom.windowWidth - windowDom.elementRect.right ∧
      binary64 (windowDom.windowHeight - windowDom.elementRect.bottom) =
        windowDom.windowHeight - windowDom.elementRect.bottom) ∧
    ∃ d', _updateElementVisibility64 defaults windowDom initialData = Except.ok d' ∧
      d'.container.rect = some ⟨0, 0, windowDom.windowWidth, windowDom.windowHeight,
        windowDom.windowWidth, windowDom.windowHeight⟩ ∧
      (d'.element.visible = true ↔
        (windowDom.elementRect.left < windowDom.windowWidth ∧ windowDom.elementRect.right > 0 ∧
          windowDom.elementRect.top < windowDom.windowHeight ∧
          windowDom.elementRect.bottom > 0)) :=
  have hW : 0 < windowDom.windowWidth := by norm_num [windowDom]
  have hH : 0 < windowDom.windowHeight := by norm_num [windowDom]
  have hx : windowDom.elementRect.left < windowDom.elementRect.right := by norm_num [windowDom]
  have hy : windowDom.elementRect.top < windowDom.elementRect.bottom := by norm_num [windowDom]
  ⟨⟨rfl, rfl, rfl, hW, hH, hx, hy, windowDom_isBinary64.1, windowDom_isBinary64.2.1,
      windowDom_isBinary64.2.2.1⟩,
    visible64_iff_overlap defaults windowDom initialData rfl rfl rfl hW hH hx hy
      windowDom_isBinary64.1 windowDom_isBinary64.2.1 windowDom_isBinary64.2.2.1⟩

/-- The progress values of the binary64 recompute on `sliverDom`: 1000 + 2^-45 rounds to
1000, the horizontal quotient 300 / 1200 is 1/4 and the vertical quotient 2^-45 / 1000 rounds
to 4611686018427388 / 2^107. -/
theorem progress64_sliver :
    (recomputed64 defaults sliverDom (numberOffset 0)).element.progress =
      ⟨JSNum.fin (1 / 4), JSNum.fin (4611686018427388 / 2 ^ 107)⟩ := by
  have hc : contData defaults sliverDom = sliverDom.containerRect := by
    simp [contData, defaults, sliverDom]
  have h300 : binary64 (300 - 0) = 300 := by
    have := binary64_dyadic 300 0 (by norm_num)
    norm_num at this ⊢
    exact this
  have h1200 : binary64 (1000 + 200) = 1200 := by
    have := binary64_dyadic 1200 0 (by norm_num)
    norm_num at this ⊢
    exact this
  have hq : binary64 (300 / 1200) = 1 / 4 := by
    have := binary64_dyadic 1 (-2) (by norm_num)
    norm_num at this ⊢
    exact this
  have hb : binary64 (1 / 2 ^ 45 - 0) = 1 / 2 ^ 45 := by
    have := binary64_dyadic 1 (-45) (by norm_num)
    norm_num at this ⊢
    exact this
  have hs : binary64 (800 + (200 + 1 / 2 ^ 45)) = 1000 := by
    rw [binary64_eq_of_pos (800 + (200 + 1 / 2 ^ 45)) 9 (1000 * 2 ^ 43) (by norm_num)
      (by norm_num) (by norm_num) (by norm_num [abs_lt])]
    norm_num
  have hy : binary64 (1 / 2 ^ 45 / 1000) = 4611686018427388 / 2 ^ 107 := by
    rw [binary64_eq_of_pos (1 / 2 ^ 45 / 1000) (-55) 4611686018427388 (by norm_num)
      (by norm_num) (by norm_num) (by norm_num [abs_lt])]
    norm_num
  simp only [recomputed64, elemData64_zero _ sliver_isBinary64, hc]
  simp only [progressX64, progressY64, sliverDom, h300, h1200, hb, hs, jsDiv64]
  rw [if_neg (by norm_num), if_neg (by norm_num), hq, hy]
  norm_num [_normalizePercent, JSNum.gt, JSNum.lt]

/-- Claim C27 as stated fails in binary64. With the default settings on `sliverDom`, whose
element has width = right - left > 0 and height = bottom - top > 0, the recompute returns
with `visible` false although `progress.x` = 1/4 and `progress.y` = 4611686018427388 / 2^107
are both strictly between 0 and 1. -/
theorem visible64_progress_sliver :
    (defaults.partiallyVisible = true ∧ defaults.offset = OffsetValue.num 0 ∧
      defaults.containerIsWindow = true ∧ sliverDom.elementRect.isBinary64 ∧
      sliverDom.elementRect.width = sliverDom.elementRect.right - sliverDom.elementRect.left ∧
      0 < sliverDom.elementRect.width ∧
      sliverDom.elementRect.height = sliverDom.elementRect.bottom - sliverDom.elementRect.top ∧
      0 < sliverDom.elementRect.height) ∧
    ∃ d', _updateElementVisibility64 defaults sliverDom initialData = Except.ok d' ∧
      d'.element.visible = false ∧
      d'.element.progress = ⟨JSNum.fin (1 / 4), JSNum.fin (4611686018427388 / 2 ^ 107)⟩ ∧
      d'.element.progress.x.strictlyInside ∧ d'.element.progress.y.strictlyInside := by
  obtain ⟨h1, -, h3⟩ := updateElementVisibility64_sliver
  refine ⟨⟨rfl, rfl, rfl, sliver_isBinary64, by norm_num [sliverDom], by norm_num [sliverDom],
    by norm_num [sliverDom], by norm_num [sliverDom]⟩, _, h1, h3, progress64_sliver, ?_, ?_⟩
  · rw [progress64_sliver]
    norm_num [JSNum.strictlyInside]
  · rw [progress64_sliver]
    norm_num [JSNum.strictlyInside]

/-- Claim C27, amended: with `partiallyVisible` enabled, offset 0 and the window as the
container (positive extents), for an element rectangle of binary64 numbers with width =
right - left > 0 and height = bottom - top > 0, and provided the differences window width -
right, window height - bottom and the sums window width + width, window height + height are
exact in binary64, the recompute returns and `visible` is true exactly when `progress.x` and
`progress.y` are both strictly between 0 and 1. -/
theorem visible64_iff_progress_inside (s : Settings) (dom : Dom) (d : Data)
    (hpv : s.partiallyVisible = true) (hoff : s.offset = OffsetValue.num 0)
    (hwin : s.containerIsWindow = true) (hW : 0 < dom.windowWidth) (hH : 0 < dom.windowHeight)
    (hw : dom.elementRect.width = dom.elementRect.right - dom.elementRect.left)
    (hwpos : 0 < dom.elementRect.width)
    (hh : dom.elementRect.height = dom.elementRect.bottom - dom.elementRect.top)
    (hhpos : 0 < dom.elementRect.height)
    (hrep : dom.elementRect.isBinary64)
    (her : binary64 (dom.windowWidth - dom.elementRect.right) =
      dom.windowWidth - dom.elementRect.right)
    (heb : binary64 (dom.windowHeight - dom.elementRect.bottom) =
      dom.windowHeight - dom.elementRect.bottom)
    (hsx : binary64 (dom.windowWidth + dom.elementRect.width) =
      dom.windowWidth + dom.elementRect.width)
    (hsy : binary64 (dom.windowHeight + dom.elementRect.height) =
      dom.windowHeight + dom.elementRect.height) :
    ∃ d', _updateElementVisibility64 s dom d = Except.ok d' ∧
      (d'.element.visible = true ↔
        (d'.element.progress.x.strictlyInside ∧ d'.element.progress.y.strictlyInside)) := by
  have hx : 0 < dom.windowWidth + dom.elementRect.width := by linarith
  have hy : 0 < dom.windowHeight + dom.elementRect.height := by linarith
  refine ⟨_, updateElementVisibility64_num s dom d 0 hoff, ?_⟩
  simp only [recomputed64, elemData64_zero _ hrep, contData_window s dom hwin]
  rw [elementPosition64_window _ _ _ hrep heb her,
    elementVisibility_window s dom.elementRect _ _ hpv hW hH (by linarith) (by linarith),
    progressX64_eq _ _ hrep.2.2.1 hsx rfl (ne_of_gt hx),
    progressY64_eq _ _ hrep.2.2.2.1 hsy rfl (ne_of_gt hy)]
  simp only [JSNum.strictlyInside, clamp_strict_iff]
  rw [binary64_div_strict _ _ hrep.2.2.1 hsx hx, binary64_div_strict _ _ hrep.2.2.2.1 hsy hy]
  constructor
  · rintro ⟨h1, h2, h3, h4⟩
    exact ⟨⟨h2, by linarith⟩, ⟨h4, by linarith⟩⟩
  · rintro ⟨⟨h1, h2⟩, ⟨h3, h4⟩⟩
    exact ⟨by linarith, h1, by linarith, h3⟩

/-- Claim C27 at a concrete input: the default settings on `windowDom`. -/
theorem visible64_iff_progress_inside_witness :
    (defaults.partiallyVisible = true ∧ defaults.offset = OffsetValue.num 0 ∧
      defaults.containerIsWindow = true ∧ 0 < windowDom.windowWidth ∧
      0 < windowDom.windowHeight ∧
      windowDom.elementRect.width = windowDom.elementRect.right - windowDom.elementRect.left ∧
      0 < windowDom.elementRect.width ∧
      windowDom.elementRect.height = windowDom.elementRect.bottom - windowDom.elementRect.top ∧
      0 < windowDom.elementRect.height ∧ windowDom.elementRect.isBinary64 ∧
      binary64 (windowDom.windowWidth - windowDom.elementRect.right) =
        windowDom.windowWidth - windowDom.elementRect.right ∧
      binary64 (windowDom.windowHeight - windowDom.elementRect.bottom) =
        windowDom.windowHeight - windowDom.elementRect.bottom ∧
      binary64 (windowDom.windowWidth + windowDom.elementRect.width) =
        windowDom.windowWidth + windowDom.elementRect.width ∧
      binary64 (windowDom.windowHeight + windowDom.elementRect.height) =
        windowDom.windowHeight + windowDom.elementRect.height) ∧
    ∃ d', _updateElementVisibility64 defaults windowDom initialData = Except.ok d' ∧
      (d'.element.visible = true ↔
        (d'.element.progress.x.strictlyInside ∧ d'.element.progress.y.strictlyInside)) :=
  have hW : 0 < windowDom.windowWidth := by norm_num [windowDom]
  have hH : 0 < windowDom.windowHeight := by norm_num [windowDom]
  have hw : windowDom.elementRect.width =
      windowDom.elementRect.right - windowDom.elementRect.left := by norm_num [windowDom]
  have hwpos : 0 < windowDom.elementRect.width := by norm_num [windowDom]
  have hh : windowDom.elementRect.height =
      windowDom.elementRect.bottom - windowDom.elementRect.top := by norm_num [windowDom]
  have hhpos : 0 < windowDom.elementRect.height := by norm_num [windowDom]
  have hb := windowDom_isBinary64
  ⟨⟨rfl, rfl, rfl, hW, hH, hw, hwpos, hh, hhpos, hb.1, hb.2.1, hb.2.2.1, hb.2.2.2.1,
      hb.2.2.2.2⟩,
    visible64_iff_progress_inside defaults windowDom initialData rfl rfl rfl hW hH hw hwpos
      hh hhpos hb.1 hb.2.1 hb.2.2.1 hb.2.2.2.1 hb.2.2.2.2⟩

end Vizi
